import Mathlib

/-!
Verification development for the receipt-certification subsystem of
llmring-server.

The definitions below are a shallow embedding of the Python source:

* `src/llmring_server/services/receipts.py` (signing, verification,
  on-demand receipt generation, base64url helpers),
* `src/llmring_server/config.py` (keypair loading, key-id derivation),
* `src/llmring_server/models/receipts.py` (the receipt data model).

Modelling conventions:

* bytes are `List Nat` with every element `< 256`;
* Python `float` cost fields are modelled as exact rationals `ℚ`
  (no statement below depends on rounding);
* `datetime` values are modelled as `Nat` instants, `isoformat` as the
  decimal rendering of the instant;
* database tables are lists of row structures, `fetch_one` is `List.find?`
  over the list, SQL `ORDER BY ... DESC` is insertion sort by the ordering
  key, `INSERT` appends;
* the PyNaCl Ed25519 primitives are an external library: they are
  parameters (`Ed25519Impl`) of the functions that call them, together
  with the argument-length checks the library performs itself;
* a Python function that can raise is embedded returning `Except String`
  (or `Option` when only presence matters), with the message of the
  exception that the source raises.
-/

/-! ## base64url helpers (receipts.py `_b64url_encode` / `_b64url_decode`) -/

/-- One character of the urlsafe base64 alphabet, for a sextet value.
Mirrors the alphabet used by `base64.urlsafe_b64encode`:
`A-Z`, `a-z`, `0-9`, `-`, `_`. -/
def b64Char (n : Nat) : Char :=
  if n < 26 then Char.ofNat (65 + n)
  else if n < 52 then Char.ofNat (97 + (n - 26))
  else if n < 62 then Char.ofNat (48 + (n - 52))
  else if n = 62 then Char.ofNat 45
  else Char.ofNat 95

/-- Sextet value of a urlsafe-base64 alphabet character; `none` for a
character outside the alphabet (the padding character included). -/
def b64Val (c : Char) : Option Nat :=
  if 65 ≤ c.toNat ∧ c.toNat ≤ 90 then some (c.toNat - 65)
  else if 97 ≤ c.toNat ∧ c.toNat ≤ 122 then some (26 + (c.toNat - 97))
  else if 48 ≤ c.toNat ∧ c.toNat ≤ 57 then some (52 + (c.toNat - 48))
  else if c.toNat = 45 then some 62
  else if c.toNat = 95 then some 63
  else none

/-- Padded urlsafe base64 encoding of a byte list, three input bytes per
four output characters, with `=` padding, as `base64.urlsafe_b64encode`
produces it. -/
def encodeQuartets : List Nat → List Char
  | [] => []
  | [a] => [b64Char (a / 4), b64Char (a % 4 * 16), Char.ofNat 61, Char.ofNat 61]
  | [a, b] => [b64Char (a / 4), b64Char (a % 4 * 16 + b / 16), b64Char (b % 16 * 4),
      Char.ofNat 61]
  | a :: b :: c :: rest =>
    b64Char (a / 4) :: b64Char (a % 4 * 16 + b / 16) :: b64Char (b % 16 * 4 + c / 64) ::
      b64Char (c % 64) :: encodeQuartets rest

/-- The `=`-free part of `encodeQuartets`. -/
def encodeCore : List Nat → List Char
  | [] => []
  | [a] => [b64Char (a / 4), b64Char (a % 4 * 16)]
  | [a, b] => [b64Char (a / 4), b64Char (a % 4 * 16 + b / 16), b64Char (b % 16 * 4)]
  | a :: b :: c :: rest =>
    b64Char (a / 4) :: b64Char (a % 4 * 16 + b / 16) :: b64Char (b % 16 * 4 + c / 64) ::
      b64Char (c % 64) :: encodeCore rest

/-- Number of `=` padding characters `encodeQuartets` appends. -/
def padCount : List Nat → Nat
  | [] => 0
  | [_] => 2
  | [_, _] => 1
  | _ :: _ :: _ :: rest => padCount rest

/-- Strip trailing `=` characters, as Python `str.rstrip` with those
characters does. -/
def rstripEq (l : List Char) : List Char :=
  (l.reverse.dropWhile (fun c => c = Char.ofNat 61)).reverse

/-- `_b64url_encode(data)`: `base64.urlsafe_b64encode(data).decode().rstrip("=")`. -/
def b64urlEncode (data : List Nat) : String :=
  String.mk (rstripEq (encodeQuartets data))

/-- Decode a padded base64url character list, four characters to three
bytes, `=` padding allowed only at the very end.  `none` models the
`binascii.Error` that `base64.urlsafe_b64decode` raises on malformed
input.  (CPython additionally discards characters outside the alphabet
before decoding; no statement below depends on that leniency, and on
alphabet-only input — which includes every encoder output — the model is
exact.) -/
def decodeQuartets : List Char → Option (List Nat)
  | [] => some []
  | c1 :: c2 :: c3 :: c4 :: rest =>
    if rest = [] ∧ c3 = Char.ofNat 61 ∧ c4 = Char.ofNat 61 then
      match b64Val c1, b64Val c2 with
      | some v1, some v2 => some [v1 * 4 + v2 / 16]
      | _, _ => none
    else if rest = [] ∧ c4 = Char.ofNat 61 then
      match b64Val c1, b64Val c2, b64Val c3 with
      | some v1, some v2, some v3 =>
        some [v1 * 4 + v2 / 16, v2 % 16 * 16 + v3 / 4]
      | _, _, _ => none
    else
      match b64Val c1, b64Val c2, b64Val c3, b64Val c4 with
      | some v1, some v2, some v3, some v4 =>
        match decodeQuartets rest with
        | some bs => some ((v1 * 4 + v2 / 16) :: (v2 % 16 * 16 + v3 / 4) ::
            (v3 % 4 * 64 + v4) :: bs)
        | none => none
      | _, _, _, _ => none
  | _ => none

/-- `_b64url_decode(data)`: re-add `=` padding up to a multiple of four,
then decode; `none` models the exception on malformed input. -/
def b64urlDecode (data : String) : Option (List Nat) :=
  decodeQuartets (data.toList ++ List.replicate ((4 - data.length % 4) % 4) (Char.ofNat 61))

/-! ## Receipt data model (models/receipts.py) -/

/-- `UnsignedReceipt` — the thirteen fields of the pre-signature payload
(`models/receipts.py`).  `receipt_id` and `timestamp` defaults
(`rcpt_<hex>` fresh id, `now(utc)`) are nondeterministic in the source and
are supplied by the caller in this embedding. -/
structure UnsignedReceipt where
  receipt_id : String
  timestamp : Nat
  «alias» : String
  profile : String
  lock_digest : String
  provider : String
  model : String
  prompt_tokens : Nat
  completion_tokens : Nat
  total_tokens : Nat
  input_cost : ℚ
  output_cost : ℚ
  total_cost : ℚ
deriving DecidableEq

/-- `Receipt` — `UnsignedReceipt` plus the optional signature field. -/
structure Receipt extends UnsignedReceipt where
  signature : Option String
deriving DecidableEq

/-- `BatchReceiptSummary` (models/receipts.py).  The `by_model` /
`by_alias` breakdowns are association lists from the grouping key to
`(calls, cost, tokens)`, in first-seen key order as Python dict insertion
order gives. -/
structure BatchReceiptSummary where
  total_conversations : Nat
  total_calls : Nat
  total_tokens : Nat
  total_cost : ℚ
  start_date : Option String
  end_date : Option String
  by_model : List (String × (Nat × ℚ × Nat))
  by_alias : List (String × (Nat × ℚ × Nat))
  conversation_ids : List String
  log_ids : List String
deriving DecidableEq

/-- `BatchReceipt` — `Receipt` plus the batch-only metadata fields. -/
structure BatchReceipt extends Receipt where
  receipt_type : String
  batch_summary : Option BatchReceiptSummary
  description : Option String
  tags : Option (List String)
deriving DecidableEq

/-- `ReceiptGenerationRequest` (models/receipts.py).  Identifiers are
natural numbers standing for UUIDs. -/
structure ReceiptGenerationRequest where
  conversation_id : Option Nat
  start_date : Option Nat
  end_date : Option Nat
  log_ids : Option (List Nat)
  since_last_receipt : Bool
  description : Option String
  tags : Option (List String)
deriving DecidableEq

/-! ## Canonicalization and Ed25519 signing (receipts.py) -/

/-- JSON string escaping of quote and backslash; the remaining JSON
escapes concern control characters that no statement below exercises. -/
def jsonEscape (s : String) : String :=
  String.mk (s.toList.flatMap (fun c =>
    if c = Char.ofNat 34 then [Char.ofNat 92, Char.ofNat 34]
    else if c = Char.ofNat 92 then [Char.ofNat 92, Char.ofNat 92]
    else [c]))

/-- A JSON string literal. -/
def jsonStr (s : String) : String :=
  String.mk [Char.ofNat 34] ++ jsonEscape s ++ String.mk [Char.ofNat 34]

/-- `_canonicalize_bytes` applied to a receipt payload: `rfc8785.dumps`
of the thirteen-field mapping, keys in sorted order, no insignificant
whitespace, the timestamp already rendered to a string by the caller
(`_issue_signature` / `_verify_signature` convert it with `isoformat`).
Number rendering is modelled by `toString`; determinism, not the concrete
digits, is what the statements below rely on. -/
def canonicalReceiptJson (p : UnsignedReceipt) : String :=
  "\x7b" ++
  jsonStr "alias" ++ ":" ++ jsonStr p.«alias» ++ "," ++
  jsonStr "completion_tokens" ++ ":" ++ toString p.completion_tokens ++ "," ++
  jsonStr "input_cost" ++ ":" ++ toString p.input_cost ++ "," ++
  jsonStr "lock_digest" ++ ":" ++ jsonStr p.lock_digest ++ "," ++
  jsonStr "model" ++ ":" ++ jsonStr p.model ++ "," ++
  jsonStr "output_cost" ++ ":" ++ toString p.output_cost ++ "," ++
  jsonStr "profile" ++ ":" ++ jsonStr p.profile ++ "," ++
  jsonStr "prompt_tokens" ++ ":" ++ toString p.prompt_tokens ++ "," ++
  jsonStr "provider" ++ ":" ++ jsonStr p.provider ++ "," ++
  jsonStr "receipt_id" ++ ":" ++ jsonStr p.receipt_id ++ "," ++
  jsonStr "timestamp" ++ ":" ++ jsonStr (toString p.timestamp) ++ "," ++
  jsonStr "total_cost" ++ ":" ++ toString p.total_cost ++ "," ++
  jsonStr "total_tokens" ++ ":" ++ toString p.total_tokens ++
  "\x7d"

/-- The PyNaCl Ed25519 primitives, an external library to this
repository: `sign key message` returns the 64-byte detached signature,
`verify key message sig` the verification verdict (PyNaCl raises
`BadSignatureError` instead of returning `false`; the caller under
embedding catches it, so a boolean models it faithfully). -/
structure Ed25519Impl where
  sign : List Nat → String → List Nat
  verify : List Nat → String → List Nat → Bool

/-- The receipts-relevant part of `Settings` (config.py): the three
key-material fields.  `none` models an unset environment variable. -/
structure Settings where
  receipts_private_key_base64 : Option String
  receipts_public_key_base64 : Option String
  receipts_key_id : Option String
deriving DecidableEq

/-- Python truthiness of an optional string: `None` and `""` are falsy. -/
def strFalsy : Option String → Bool
  | none => true
  | some s => s = ""

/-- `ReceiptsService._issue_signature`: require a configured private key
(`RuntimeError` otherwise), canonicalize the payload with the timestamp
in rendered form, Ed25519-sign, and prepend `ed25519:` to the
base64url-encoded signature.  The key decode and the 32-byte seed check
that `nacl.signing.SigningKey` performs propagate as errors, as in the
source (no `except` around `_issue_signature`). -/
def issueSignature (impl : Ed25519Impl) (settings : Settings)
    (payload : UnsignedReceipt) : Except String String :=
  match settings.receipts_private_key_base64 with
  | none => .error "Signing key not configured"
  | some keyB64 =>
    if keyB64 = "" then .error "Signing key not configured"
    else
      match b64urlDecode keyB64 with
      | none => .error "invalid private key encoding"
      | some keyBytes =>
        if keyBytes.length ≠ 32 then .error "invalid private key length"
        else
          let canonical := canonicalReceiptJson payload
          .ok ("ed25519:" ++ b64urlEncode (impl.sign keyBytes canonical))

/-- `ReceiptsService._verify_signature`: reject (return `false`) when the
signature is missing or lacks the `ed25519:` prefix; strip the signature
and the batch-only fields (`model_dump` with
`exclude = signature, receipt_type, batch_summary, description, tags`),
canonicalize, and verify.  Every exception inside the `try` — an
unconfigured public key, a base64 decode failure, a wrong key or
signature size, a bad signature — is caught and mapped to `false`. -/
def verifySignature (impl : Ed25519Impl) (settings : Settings)
    (receipt : BatchReceipt) : Bool :=
  match receipt.signature with
  | none => false
  | some sig =>
    if sig = "" then false
    else if ¬ sig.startsWith "ed25519:" then false
    else
      let sigB64 := sig.drop 8
      let canonical := canonicalReceiptJson receipt.toUnsignedReceipt
      match settings.receipts_public_key_base64 with
      | none => false
      | some pkB64 =>
        if pkB64 = "" then false
        else
          match b64urlDecode pkB64 with
          | none => false
          | some pk =>
            if pk.length ≠ 32 then false
            else
              match b64urlDecode sigB64 with
              | none => false
              | some sigBytes =>
                if sigBytes.length ≠ 64 then false
                else impl.verify pk canonical sigBytes

/-! ## Database model

Rows of the tables the receipt service reads and writes.  Identifiers
are natural numbers standing for UUIDs; `str(uuid)` / `UUID(str)` are the
`toString` rendering and its inverse.  Nullable columns are `Option`. -/

/-- A row of `conversations` as the receipt queries project it. -/
structure ConversationRow where
  id : Nat
  api_key_id : String
  model_alias : Option String
  total_input_tokens : Option Nat
  total_output_tokens : Option Nat
  total_cost : Option ℚ
  created_at : Nat
deriving DecidableEq

/-- A row of `usage_logs` as the receipt queries project it.
`provider` and `model` are required on insertion (`services/usage.py`),
so they are plain strings. -/
structure UsageRow where
  id : Nat
  api_key_id : String
  «alias» : Option String
  provider : String
  model : String
  input_tokens : Option Nat
  output_tokens : Option Nat
  cost : Option ℚ
  created_at : Nat
  conversation_id : Option Nat
deriving DecidableEq

/-- A row of `messages` as `_fetch_conversation_logs` projects it:
the metadata JSON reduced to the two keys the service reads. -/
structure MessageRow where
  conversation_id : Nat
  timestamp : Nat
  meta_provider : Option String
  meta_model : Option String
  has_metadata : Bool
deriving DecidableEq

/-- A row of `receipt_logs`, the receipt-to-record linkage table. -/
structure ReceiptLogRow where
  receipt_id : String
  log_id : Nat
  log_type : String
deriving DecidableEq

/-- A row of `receipts` with the columns `_store_receipt` /
`_store_batch_receipt` write and `get_receipt` reads back (the `tokens`
and `cost` JSONB documents are flattened into scalar columns). -/
structure ReceiptRow where
  receipt_id : String
  api_key_id : String
  model : String
  provider : String
  «alias» : String
  profile : String
  lock_digest : String
  signature : Option String
  receipt_timestamp : Nat
  conversation_id : Option Nat
  tokens_input : Nat
  tokens_output : Nat
  cost_input : ℚ
  cost_output : ℚ
  cost_total : ℚ
  receipt_type : Option String
  batch_summary : Option BatchReceiptSummary
  description : Option String
  tags : Option (List String)
deriving DecidableEq

/-- The backing store: one list per table, in physical row order. -/
structure Db where
  conversations : List ConversationRow
  usage_logs : List UsageRow
  messages : List MessageRow
  receipts : List ReceiptRow
  receipt_logs : List ReceiptLogRow
deriving DecidableEq

/-- A normalized candidate record, the dict shape every `_fetch_*` helper
of the service produces (`id`, `type`, `alias`, `provider`, `model`,
`input_tokens`, `output_tokens`, `cost`, `timestamp`). -/
structure LogEntry where
  id : Nat
  type : String
  «alias» : String
  provider : String
  model : String
  input_tokens : Nat
  output_tokens : Nat
  cost : ℚ
  timestamp : Nat
deriving DecidableEq

/-- Python `value or "default"`: `None` and the empty string both fall
back to the default. -/
def orDefault (v : Option String) (d : String) : String :=
  match v with
  | none => d
  | some s => if s = "" then d else s

/-- Python `float(x) if x else 0.0` on a nullable numeric column:
`None` and `0` both give `0`. -/
def costOrZero (v : Option ℚ) : ℚ :=
  match v with
  | none => 0
  | some q => q

/-- SQL `ORDER BY created_at DESC` on conversation rows. -/
def sortConvDesc (l : List ConversationRow) : List ConversationRow :=
  List.insertionSort (fun a b => b.created_at ≤ a.created_at) l

/-- SQL `ORDER BY created_at DESC` on usage rows. -/
def sortUsageDesc (l : List UsageRow) : List UsageRow :=
  List.insertionSort (fun a b => b.created_at ≤ a.created_at) l

/-- SQL `ORDER BY timestamp DESC` on message rows. -/
def sortMsgDesc (l : List MessageRow) : List MessageRow :=
  List.insertionSort (fun a b => b.timestamp ≤ a.timestamp) l

/-- Normalization of a conversation row to the candidate dict shape, as
`_fetch_logs_by_date_range` / `_fetch_uncertified_logs` build it:
provider and model are the literal `"unknown"`, `alias` falls back to
`"default"`, token counts and cost fall back to zero. -/
def convEntry (c : ConversationRow) : LogEntry :=
  { id := c.id
    type := "conversation"
    «alias» := orDefault c.model_alias "default"
    provider := "unknown"
    model := "unknown"
    input_tokens := (c.total_input_tokens).getD 0
    output_tokens := (c.total_output_tokens).getD 0
    cost := costOrZero c.total_cost
    timestamp := c.created_at }

/-- Normalization of a usage row to the candidate dict shape. -/
def usageEntry (u : UsageRow) : LogEntry :=
  { id := u.id
    type := "usage"
    «alias» := orDefault u.«alias» "default"
    provider := u.provider
    model := u.model
    input_tokens := (u.input_tokens).getD 0
    output_tokens := (u.output_tokens).getD 0
    cost := costOrZero u.cost
    timestamp := u.created_at }

/-! ## LogSelector (receipts.py `_fetch_*`) -/

/-- `_fetch_conversation_logs`: the one conversation owned by the caller,
with provider/model pulled from its most recent message metadata;
`[]` when the conversation does not exist for this owner. -/
def fetchConversationLogs (db : Db) (api_key_id : String)
    (conversation_id : Nat) : List LogEntry :=
  match db.conversations.find?
      (fun c => c.id = conversation_id ∧ c.api_key_id = api_key_id) with
  | none => []
  | some c =>
    let latest := (sortMsgDesc (db.messages.filter
        (fun m => m.conversation_id = conversation_id))).head?
    let provider :=
      match latest with
      | some m => if m.has_metadata then (m.meta_provider).getD "unknown" else "unknown"
      | none => "unknown"
    let model :=
      match latest with
      | some m => if m.has_metadata then (m.meta_model).getD "unknown" else "unknown"
      | none => "unknown"
    [{ id := c.id
       type := "conversation"
       «alias» := orDefault c.model_alias "default"
       provider := provider
       model := model
       input_tokens := (c.total_input_tokens).getD 0
       output_tokens := (c.total_output_tokens).getD 0
       cost := costOrZero c.total_cost
       timestamp := c.created_at }]

/-- `_fetch_logs_by_date_range`: conversations in the owner's date
range, newest first, followed by conversation-less usage logs in the
range, newest first.  No filter against `receipt_logs` appears in either
query. -/
def fetchLogsByDateRange (db : Db) (api_key_id : String)
    (start_date end_date : Nat) : List LogEntry :=
  let convs := sortConvDesc (db.conversations.filter
    (fun c => c.api_key_id = api_key_id ∧
      start_date ≤ c.created_at ∧ c.created_at ≤ end_date))
  let usages := sortUsageDesc (db.usage_logs.filter
    (fun u => u.api_key_id = api_key_id ∧
      start_date ≤ u.created_at ∧ u.created_at ≤ end_date ∧
      u.conversation_id = none))
  convs.map convEntry ++ usages.map usageEntry

/-- `_fetch_logs_by_ids`: the given identifiers among the owner's
conversations, then among the owner's usage logs, in physical row order
(the queries carry no `ORDER BY`); no certification filter. -/
def fetchLogsByIds (db : Db) (api_key_id : String)
    (log_ids : List Nat) : List LogEntry :=
  match log_ids with
  | [] => []
  | _ =>
    let convs := db.conversations.filter
      (fun c => c.api_key_id = api_key_id ∧ c.id ∈ log_ids)
    let usages := db.usage_logs.filter
      (fun u => u.api_key_id = api_key_id ∧ u.id ∈ log_ids)
    convs.map convEntry ++ usages.map usageEntry

/-- `_fetch_uncertified_logs`: the owner's conversations with no
`receipt_logs` row of type `conversation`, newest first, followed by the
owner's usage logs with no `receipt_logs` row of type `usage`, newest
first (the `NOT EXISTS` anti-join of the two queries). -/
def fetchUncertifiedLogs (db : Db) (api_key_id : String) : List LogEntry :=
  let convs := sortConvDesc (db.conversations.filter
    (fun c => c.api_key_id = api_key_id ∧
      ¬ db.receipt_logs.any
        (fun rl => rl.log_id = c.id ∧ rl.log_type = "conversation")))
  let usages := sortUsageDesc (db.usage_logs.filter
    (fun u => u.api_key_id = api_key_id ∧
      ¬ db.receipt_logs.any
        (fun rl => rl.log_id = u.id ∧ rl.log_type = "usage")))
  convs.map convEntry ++ usages.map usageEntry

/-! ## AggregationEngine and ReceiptStore (receipts.py) -/

/-- One `by_model` / `by_alias` bucket update: increment `calls`, add the
cost, add the tokens, creating the bucket on first sight of the key
(Python dict, insertion-ordered). -/
def bumpBucket (m : List (String × (Nat × ℚ × Nat))) (key : String)
    (cost : ℚ) (tokens : Nat) : List (String × (Nat × ℚ × Nat)) :=
  if m.any (fun p => p.1 = key) then
    m.map (fun p =>
      if p.1 = key then (p.1, (p.2.1 + 1, p.2.2.1 + cost, p.2.2.2 + tokens)) else p)
  else m ++ [(key, (1, cost, tokens))]

/-- The `by_model` breakdown of `_create_batch_receipt`. -/
def byModelOf (logs : List LogEntry) : List (String × (Nat × ℚ × Nat)) :=
  logs.foldl (fun acc log =>
    bumpBucket acc log.model log.cost (log.input_tokens + log.output_tokens)) []

/-- The `by_alias` breakdown of `_create_batch_receipt`. -/
def byAliasOf (logs : List LogEntry) : List (String × (Nat × ℚ × Nat)) :=
  logs.foldl (fun acc log =>
    bumpBucket acc log.«alias» log.cost (log.input_tokens + log.output_tokens)) []

/-- Sum of a projected quantity over the selected logs. -/
def sumTokens (logs : List LogEntry) (f : LogEntry → Nat) : Nat :=
  logs.foldl (fun acc log => acc + f log) 0

/-- Sum of the `cost` field over the selected logs. -/
def sumCost (logs : List LogEntry) : ℚ :=
  logs.foldl (fun acc log => acc + log.cost) 0

/-- `_store_batch_receipt`: append the receipt row (no
`conversation_id` column in this insert). -/
def storeBatchReceipt (db : Db) (api_key_id : String) (r : BatchReceipt) : Db :=
  { db with receipts := db.receipts ++
    [{ receipt_id := r.receipt_id
       api_key_id := api_key_id
       model := r.model
       provider := r.provider
       «alias» := r.«alias»
       profile := r.profile
       lock_digest := r.lock_digest
       signature := r.signature
       receipt_timestamp := r.timestamp
       conversation_id := none
       tokens_input := r.prompt_tokens
       tokens_output := r.completion_tokens
       cost_input := r.input_cost
       cost_output := r.output_cost
       cost_total := r.total_cost
       receipt_type := some r.receipt_type
       batch_summary := r.batch_summary
       description := r.description
       tags := r.tags }] }

/-- `_create_batch_receipt`: aggregate the selected logs, build the
unsigned payload (`input_cost = output_cost = 0.0` — the source comment
reads "Cost split not available for batch" — while `total_cost` is the
summed cost), sign it, extend it with the batch metadata, and store it. -/
def createBatchReceipt (impl : Ed25519Impl) (settings : Settings)
    (rid : String) (now : Nat) (db : Db) (api_key_id : String)
    (logs : List LogEntry) (_log_type : String)
    (description : Option String) (tags : Option (List String)) :
    Except String (BatchReceipt × Db) :=
  let total_input_tokens := sumTokens logs (fun l => l.input_tokens)
  let total_output_tokens := sumTokens logs (fun l => l.output_tokens)
  let total_cost := sumCost logs
  let conversation_ids := (logs.filter (fun l => l.type = "conversation")).map
    (fun l => toString l.id)
  let log_ids := (logs.filter (fun l => ¬ l.type = "conversation")).map
    (fun l => toString l.id)
  let timestamps := logs.map (fun l => l.timestamp)
  let batch_summary : BatchReceiptSummary :=
    { total_conversations := conversation_ids.length
      total_calls := logs.length
      total_tokens := total_input_tokens + total_output_tokens
      total_cost := total_cost
      start_date := (timestamps.foldr (fun t acc =>
        some (match acc with | none => t | some m => Nat.min t m)) none).map toString
      end_date := (timestamps.foldr (fun t acc =>
        some (match acc with | none => t | some m => Nat.max t m)) none).map toString
      by_model := byModelOf logs
      by_alias := byAliasOf logs
      conversation_ids := conversation_ids
      log_ids := log_ids }
  let receipt_type := if logs.length = 1 then "single" else "batch"
  let unsigned : UnsignedReceipt :=
    { receipt_id := rid
      timestamp := now
      «alias» := match logs.head? with | some l => l.«alias» | none => "batch"
      profile := "default"
      lock_digest := ""
      provider := match logs.head? with | some l => l.provider | none => "batch"
      model :=
        if receipt_type = "single" then
          match logs.head? with | some l => l.model | none => "batch"
        else "batch:" ++ toString logs.length ++ " calls"
      prompt_tokens := total_input_tokens
      completion_tokens := total_output_tokens
      total_tokens := total_input_tokens + total_output_tokens
      input_cost := 0
      output_cost := 0
      total_cost := total_cost }
  match issueSignature impl settings unsigned with
  | .error e => .error e
  | .ok signature =>
    let batch_receipt : BatchReceipt :=
      { toUnsignedReceipt := unsigned
        signature := some signature
        receipt_type := receipt_type
        batch_summary := some batch_summary
        description := description
        tags := tags }
    .ok (batch_receipt, storeBatchReceipt db api_key_id batch_receipt)

/-- One linkage insert with `ON CONFLICT (receipt_id, log_id) DO
NOTHING`: append unless a row with the same `(receipt_id, log_id)` pair
exists (the conflict target does not include `log_type`). -/
def insertLink (links : List ReceiptLogRow) (receipt_id : String)
    (log : LogEntry) : List ReceiptLogRow :=
  if links.any (fun r => r.receipt_id = receipt_id ∧ r.log_id = log.id) then links
  else links ++ [{ receipt_id := receipt_id, log_id := log.id, log_type := log.type }]

/-- `_link_receipt_to_logs`: one conflict-ignoring insert per selected
log, in selection order. -/
def linkReceiptToLogs (db : Db) (receipt_id : String)
    (logs : List LogEntry) : Db :=
  { db with receipt_logs :=
      (logs.foldl (fun acc log => insertLink acc receipt_id log) db.receipt_logs) }

/-- `generate_on_demand_receipt` mode dispatch: the `if`/`elif` chain
over the request, in source order (`conversation_id`, then
`start_date and end_date`, then `log_ids` — an empty list is falsy —
then `since_last_receipt`); `ValueError` when nothing is set. -/
def selectLogs (db : Db) (api_key_id : String)
    (req : ReceiptGenerationRequest) : Except String (List LogEntry) :=
  match req.conversation_id with
  | some cid => .ok (fetchConversationLogs db api_key_id cid)
  | none =>
    match req.start_date, req.end_date with
    | some s, some e => .ok (fetchLogsByDateRange db api_key_id s e)
    | _, _ =>
      match req.log_ids with
      | some (i :: is) => .ok (fetchLogsByIds db api_key_id (i :: is))
      | _ =>
        if req.since_last_receipt then .ok (fetchUncertifiedLogs db api_key_id)
        else .error
          "Must specify one of: conversation_id, date range, log_ids, or since_last_receipt"

/-- The `log_type` tag `generate_on_demand_receipt` passes alongside the
selection (unused by the aggregation itself). -/
def selectLogType (req : ReceiptGenerationRequest) : String :=
  match req.conversation_id with
  | some _ => "conversation"
  | none => "mixed"

/-- `generate_on_demand_receipt`: select per the request, raise
`ValueError("No logs found matching the criteria")` on an empty
selection, build/sign/store the batch receipt, link it to the selected
logs, and return it with the certified count. -/
def generateOnDemandReceipt (impl : Ed25519Impl) (settings : Settings)
    (rid : String) (now : Nat) (db : Db) (api_key_id : String)
    (req : ReceiptGenerationRequest) :
    Except String (BatchReceipt × Nat × Db) :=
  match selectLogs db api_key_id req with
  | .error e => .error e
  | .ok logs =>
    if logs = [] then .error "No logs found matching the criteria"
    else
      match createBatchReceipt impl settings rid now db api_key_id logs
          (selectLogType req) req.description req.tags with
      | .error e => .error e
      | .ok (receipt, db1) =>
        .ok (receipt, logs.length, linkReceiptToLogs db1 receipt.receipt_id logs)

/-! ## Single-call receipts and point lookup (receipts.py) -/

/-- `_store_receipt`: append the receipt row of the flat schema
(`conversation_id` present, batch columns absent). -/
def storeReceiptRow (db : Db) (api_key_id : String) (r : Receipt)
    (conversation_id : Option Nat) : Db :=
  { db with receipts := db.receipts ++
    [{ receipt_id := r.receipt_id
       api_key_id := api_key_id
       model := r.model
       provider := r.provider
       «alias» := r.«alias»
       profile := r.profile
       lock_digest := r.lock_digest
       signature := r.signature
       receipt_timestamp := r.timestamp
       conversation_id := conversation_id
       tokens_input := r.prompt_tokens
       tokens_output := r.completion_tokens
       cost_input := r.input_cost
       cost_output := r.output_cost
       cost_total := r.total_cost
       receipt_type := none
       batch_summary := none
       description := none
       tags := none }] }

/-- `generate_and_sign_receipt`: build the unsigned receipt with
`total_tokens = prompt + completion` and `total_cost = input + output`,
sign it, store it, and return it. -/
def generateAndSignReceipt (impl : Ed25519Impl) (settings : Settings)
    (rid : String) (now : Nat) (db : Db) (api_key_id : String)
    («alias» profile lock_digest provider model : String)
    (prompt_tokens completion_tokens : Nat) (input_cost output_cost : ℚ)
    (conversation_id : Option Nat) : Except String (Receipt × Db) :=
  let unsigned : UnsignedReceipt :=
    { receipt_id := rid
      timestamp := now
      «alias» := «alias»
      profile := profile
      lock_digest := lock_digest
      provider := provider
      model := model
      prompt_tokens := prompt_tokens
      completion_tokens := completion_tokens
      total_tokens := prompt_tokens + completion_tokens
      input_cost := input_cost
      output_cost := output_cost
      total_cost := input_cost + output_cost }
  match issueSignature impl settings unsigned with
  | .error e => .error e
  | .ok signature =>
    let signed : Receipt := { toUnsignedReceipt := unsigned, signature := some signature }
    .ok (signed, storeReceiptRow db api_key_id signed conversation_id)

/-- `get_receipt`: the first `receipts` row matching both the receipt id
and the caller's `api_key_id`, rebuilt into the `Receipt` shape
(`total_tokens` re-derived from the stored token counts); `None` when no
row matches. -/
def getReceipt (db : Db) (receipt_id api_key_id : String) : Option Receipt :=
  match db.receipts.find?
      (fun row => row.receipt_id = receipt_id ∧ row.api_key_id = api_key_id) with
  | none => none
  | some row =>
    some
      { receipt_id := row.receipt_id
        timestamp := row.receipt_timestamp
        «alias» := row.«alias»
        profile := row.profile
        lock_digest := row.lock_digest
        provider := row.provider
        model := row.model
        prompt_tokens := row.tokens_input
        completion_tokens := row.tokens_output
        total_tokens := row.tokens_input + row.tokens_output
        input_cost := row.cost_input
        output_cost := row.cost_output
        total_cost := row.cost_total
        signature := row.signature }

/-! ## KeyManager (config.py) -/

/-- Well-formedness of one base64url key line as
`nacl.signing.SigningKey` / `VerifyKey` check it: the line decodes and
the decoded key material is exactly 32 bytes. -/
def isValidKeyB64 (s : String) : Bool :=
  match b64urlDecode s with
  | none => false
  | some bytes => bytes.length = 32

/-- Python `str.strip` / `str.split` whitespace set: space, tab,
newline, carriage return, vertical tab, form feed. -/
def isPySpace (c : Char) : Bool :=
  c.toNat = 32 ∨ c.toNat = 9 ∨ c.toNat = 10 ∨ c.toNat = 13 ∨
    c.toNat = 11 ∨ c.toNat = 12

/-- Python `str.strip()`: drop whitespace from both ends. -/
def stripChars (cs : List Char) : List Char :=
  ((cs.dropWhile isPySpace).reverse.dropWhile isPySpace).reverse

/-- Python `str.split(sep)` for a one-character separator: `""` splits
to `[""]`, and every separator occurrence opens a new chunk. -/
def splitOnChar (sep : Char) : List Char → List (List Char)
  | [] => [[]]
  | c :: rest =>
    match splitOnChar sep rest with
    | [] => [[]]
    | h :: t => if c = sep then [] :: h :: t else (c :: h) :: t

/-- `load_or_generate_keypair`.  `fileContent` is the text of the key
file (`none` when no path was given or the file does not exist);
`freshPriv`/`freshPub` stand for the Ed25519 keypair
`SigningKey.generate()` would produce.  The source checks
`len(lines) >= 2`, embedded here as the two-cons list pattern: when the
file exists and has at least two lines, both lines must validate or the
whole load fails with `RuntimeError("Failed to load keypair ...")`;
when it has fewer than two lines the `if` falls through and a fresh
keypair is generated (and written back over the file). -/
def loadOrGenerateKeypair (fileContent : Option String)
    (freshPriv freshPub : List Nat) : Except String (String × String) :=
  match fileContent with
  | some content =>
    match splitOnChar (Char.ofNat 10) (stripChars content.toList) with
    | l1 :: l2 :: _ =>
      let private_b64 := String.mk (stripChars l1)
      let public_b64 := String.mk (stripChars l2)
      if isValidKeyB64 private_b64 ∧ isValidKeyB64 public_b64 then
        .ok (private_b64, public_b64)
      else .error "Failed to load keypair"
    | _ => .ok (b64urlEncode freshPriv, b64urlEncode freshPub)
  | none => .ok (b64urlEncode freshPriv, b64urlEncode freshPub)

/-! ### SHA-256 (the `hashlib.sha256` primitive used by
`ensure_receipt_keys`)

A direct embedding of FIPS 180-4 over byte lists, words as naturals
modulo `2 ^ 32`.  The round constants are the fractional parts of the
cube roots of the first 64 primes and the initial hash of the square
roots of the first 8 primes, computed here by integer root extraction
rather than transcribed. -/

/-- Integer binary search for the cube root, fuel-bounded. -/
def cbrtAux : Nat → Nat → Nat → Nat → Nat
  | 0, _, lo, _ => lo
  | fuel + 1, n, lo, hi =>
    if hi ≤ lo + 1 then lo
    else
      let mid := (lo + hi) / 2
      if mid * mid * mid ≤ n then cbrtAux fuel n mid hi
      else cbrtAux fuel n lo mid

/-- `⌊n ^ (1/3)⌋`. -/
def icbrt (n : Nat) : Nat := cbrtAux 200 n 0 (n + 1)

/-- The first 64 primes. -/
def sha256Primes : List Nat :=
  [2, 3, 5, 7, 11, 13, 17, 19, 23, 29, 31, 37, 41, 43, 47, 53,
   59, 61, 67, 71, 73, 79, 83, 89, 97, 101, 103, 107, 109, 113, 127, 131,
   137, 139, 149, 151, 157, 163, 167, 173, 179, 181, 191, 193, 197, 199, 211, 223,
   227, 229, 233, 239, 241, 251, 257, 263, 269, 271, 277, 281, 283, 293, 307, 311]

/-- The 64 SHA-256 round constants. -/
def sha256K : List Nat :=
  sha256Primes.map (fun p => icbrt (p * 2 ^ 96) % 2 ^ 32)

/-- The eight working words of the SHA-256 state. -/
structure Hash8 where
  h0 : Nat
  h1 : Nat
  h2 : Nat
  h3 : Nat
  h4 : Nat
  h5 : Nat
  h6 : Nat
  h7 : Nat

/-- The SHA-256 initial hash value. -/
def sha256H0 : Hash8 :=
  match (sha256Primes.take 8).map (fun p => Nat.sqrt (p * 2 ^ 64) % 2 ^ 32) with
  | [a, b, c, d, e, f, g, h] => ⟨a, b, c, d, e, f, g, h⟩
  | _ => ⟨0, 0, 0, 0, 0, 0, 0, 0⟩

/-- Rotate a 32-bit word right by `n` places. -/
def rotr32 (n x : Nat) : Nat :=
  (x / 2 ^ n + x % 2 ^ n * 2 ^ (32 - n)) % 2 ^ 32

/-- Bitwise exclusive or reduced into the 32-bit range. -/
def xor32 (a b : Nat) : Nat := (Nat.xor a b) % 2 ^ 32

/-- FIPS 180-4 padding: `0x80`, zeros to 56 mod 64, and the bit length
as eight big-endian bytes. -/
def sha256Pad (msg : List Nat) : List Nat :=
  let z := (119 - msg.length % 64) % 64
  let bitLen := msg.length * 8
  msg ++ [128] ++ List.replicate z 0 ++
    [bitLen / 2 ^ 56 % 256, bitLen / 2 ^ 48 % 256, bitLen / 2 ^ 40 % 256,
     bitLen / 2 ^ 32 % 256, bitLen / 2 ^ 24 % 256, bitLen / 2 ^ 16 % 256,
     bitLen / 2 ^ 8 % 256, bitLen % 256]

/-- Split into 64-byte blocks. -/
def chunks64 : List Nat → List (List Nat)
  | [] => []
  | a :: rest => ((a :: rest).take 64) :: chunks64 ((a :: rest).drop 64)
termination_by l => l.length
decreasing_by simp; omega

/-- Big-endian 32-bit words of a block. -/
def toWords32 : List Nat → List Nat
  | a :: b :: c :: d :: rest =>
    (a * 2 ^ 24 + b * 2 ^ 16 + c * 2 ^ 8 + d) % 2 ^ 32 :: toWords32 rest
  | _ => []

/-- Message-schedule extension from 16 to 64 words. -/
def sha256Schedule (w16 : Array Nat) : Array Nat :=
  (List.range 48).foldl (fun w _ =>
    let i := w.size
    let w2 := w.get! (i - 2)
    let w7 := w.get! (i - 7)
    let w15 := w.get! (i - 15)
    let w16v := w.get! (i - 16)
    let s0 := xor32 (xor32 (rotr32 7 w15) (rotr32 18 w15)) (w15 / 2 ^ 3)
    let s1 := xor32 (xor32 (rotr32 17 w2) (rotr32 19 w2)) (w2 / 2 ^ 10)
    w.push ((w16v + s0 + w7 + s1) % 2 ^ 32)) w16

/-- One SHA-256 compression round. -/
def sha256Round (st : Hash8) (kw : Nat × Nat) : Hash8 :=
  let S1 := xor32 (xor32 (rotr32 6 st.h4) (rotr32 11 st.h4)) (rotr32 25 st.h4)
  let ch := xor32 (Nat.land st.h4 st.h5) (Nat.land ((2 ^ 32 - 1) - st.h4) st.h6)
  let temp1 := (st.h7 + S1 + ch + kw.1 + kw.2) % 2 ^ 32
  let S0 := xor32 (xor32 (rotr32 2 st.h0) (rotr32 13 st.h0)) (rotr32 22 st.h0)
  let maj := xor32 (xor32 (Nat.land st.h0 st.h1) (Nat.land st.h0 st.h2))
    (Nat.land st.h1 st.h2)
  let temp2 := (S0 + maj) % 2 ^ 32
  { h0 := (temp1 + temp2) % 2 ^ 32
    h1 := st.h0
    h2 := st.h1
    h3 := st.h2
    h4 := (st.h3 + temp1) % 2 ^ 32
    h5 := st.h4
    h6 := st.h5
    h7 := st.h6 }

/-- Compress one 64-byte block into the running hash. -/
def sha256Block (h : Hash8) (block : List Nat) : Hash8 :=
  let w := sha256Schedule (List.toArray (toWords32 block))
  let st := (sha256K.zip w.toList).foldl sha256Round h
  { h0 := (h.h0 + st.h0) % 2 ^ 32
    h1 := (h.h1 + st.h1) % 2 ^ 32
    h2 := (h.h2 + st.h2) % 2 ^ 32
    h3 := (h.h3 + st.h3) % 2 ^ 32
    h4 := (h.h4 + st.h4) % 2 ^ 32
    h5 := (h.h5 + st.h5) % 2 ^ 32
    h6 := (h.h6 + st.h6) % 2 ^ 32
    h7 := (h.h7 + st.h7) % 2 ^ 32 }

/-- The eight final hash words of a byte message. -/
def sha256Words (msg : List Nat) : Hash8 :=
  (chunks64 (sha256Pad msg)).foldl sha256Block sha256H0

/-- One lowercase hexadecimal digit. -/
def hexDigit (n : Nat) : Char :=
  if n < 10 then Char.ofNat (48 + n) else Char.ofNat (87 + n)

/-- Eight lowercase hexadecimal digits of a 32-bit word. -/
def wordHex (w : Nat) : List Char :=
  [hexDigit (w / 2 ^ 28 % 16), hexDigit (w / 2 ^ 24 % 16),
   hexDigit (w / 2 ^ 20 % 16), hexDigit (w / 2 ^ 16 % 16),
   hexDigit (w / 2 ^ 12 % 16), hexDigit (w / 2 ^ 8 % 16),
   hexDigit (w / 2 ^ 4 % 16), hexDigit (w % 16)]

/-- `hashlib.sha256(msg).hexdigest()` as a character list. -/
def sha256HexChars (msg : List Nat) : List Char :=
  let h := sha256Words msg
  wordHex h.h0 ++ wordHex h.h1 ++ wordHex h.h2 ++ wordHex h.h3 ++
    wordHex h.h4 ++ wordHex h.h5 ++ wordHex h.h6 ++ wordHex h.h7

/-- UTF-8 bytes of an ASCII string (`str.encode()`); base64url key
strings are ASCII, where UTF-8 coincides with the code points. -/
def asciiBytes (s : String) : List Nat :=
  s.toList.map Char.toNat

/-- The key-id derivation of `ensure_receipt_keys`:
`f"key_{hashlib.sha256(public_b64.encode()).hexdigest()[:16]}"`. -/
def deriveKeyId (public_b64 : String) : String :=
  String.mk ("key_".toList ++ (sha256HexChars (asciiBytes public_b64)).take 16)

/-- `ensure_receipt_keys`: when either configured key is missing or
empty, load or generate a keypair, install it, and — when no key id is
configured either — derive one from the public key. -/
def ensureReceiptKeys (settings : Settings) (fileContent : Option String)
    (freshPriv freshPub : List Nat) : Except String Settings :=
  if strFalsy settings.receipts_private_key_base64 ∨
      strFalsy settings.receipts_public_key_base64 then
    match loadOrGenerateKeypair fileContent freshPriv freshPub with
    | .error e => .error e
    | .ok (private_b64, public_b64) =>
      let s1 : Settings :=
        { settings with
          receipts_private_key_base64 := some private_b64
          receipts_public_key_base64 := some public_b64 }
      if strFalsy s1.receipts_key_id then
        .ok { s1 with receipts_key_id := some (deriveKeyId public_b64) }
      else .ok s1
  else .ok settings

/-! ## Lemmas about the base64url helpers -/

/-- Alphabet roundtrip: decoding an encoded sextet recovers it. -/
theorem b64Val_b64Char : ∀ n < 64, b64Val (b64Char n) = some n := by decide

/-- No alphabet character is the padding character. -/
theorem b64Char_ne_pad : ∀ n < 64, b64Char n ≠ Char.ofNat 61 := by decide

/-- The padded encoding is the core encoding followed by the padding. -/
theorem encodeQuartets_eq_core_pad (l : List Nat) :
    encodeQuartets l = encodeCore l ++ List.replicate (padCount l) (Char.ofNat 61) := by
  induction l using encodeQuartets.induct with
  | case1 => simp [encodeQuartets, encodeCore, padCount]
  | case2 a => simp [encodeQuartets, encodeCore, padCount, List.replicate]
  | case3 a b => simp [encodeQuartets, encodeCore, padCount, List.replicate]
  | case4 a b c rest ih =>
    simp only [encodeQuartets, encodeCore, padCount, ih, List.cons_append]

/-- The core encoding of a byte list contains no padding character. -/
theorem encodeCore_ne_pad (l : List Nat) (h : ∀ x ∈ l, x < 256) :
    ∀ c ∈ encodeCore l, c ≠ Char.ofNat 61 := by
  induction l using encodeCore.induct with
  | case1 => simp [encodeCore]
  | case2 a =>
    have ha : a < 256 := h a (by simp)
    simp only [encodeCore, List.mem_cons, List.not_mem_nil, or_false]
    rintro c (rfl | rfl)
    · exact b64Char_ne_pad _ (by omega)
    · exact b64Char_ne_pad _ (by omega)
  | case3 a b =>
    have ha : a < 256 := h a (by simp)
    have hb : b < 256 := h b (by simp)
    simp only [encodeCore, List.mem_cons, List.not_mem_nil, or_false]
    rintro c (rfl | rfl | rfl)
    · exact b64Char_ne_pad _ (by omega)
    · exact b64Char_ne_pad _ (by omega)
    · exact b64Char_ne_pad _ (by omega)
  | case4 a b c rest ih =>
    have ha : a < 256 := h a (by simp)
    have hb : b < 256 := h b (by simp)
    have hc : c < 256 := h c (by simp)
    have ih2 := ih (fun x hx => h x (by simp [hx]))
    simp only [encodeCore, List.mem_cons]
    rintro d (rfl | rfl | rfl | rfl | hd)
    · exact b64Char_ne_pad _ (by omega)
    · exact b64Char_ne_pad _ (by omega)
    · exact b64Char_ne_pad _ (by omega)
    · exact b64Char_ne_pad _ (by omega)
    · exact ih2 d hd

/-- The padding count is what re-adding padding to the core computes. -/
theorem padCount_eq_mod (l : List Nat) :
    padCount l = (4 - (encodeCore l).length % 4) % 4 := by
  induction l using padCount.induct with
  | case1 => simp [padCount, encodeCore]
  | case2 a => simp [padCount, encodeCore]
  | case3 a b => simp [padCount, encodeCore]
  | case4 a b c rest ih =>
    simp only [padCount, encodeCore, List.length_cons, ih]
    omega

/-- Dropping leading copies of a value from a prepended run. -/
theorem dropWhile_replicate_append (k : Nat) (c : Char) (xs : List Char) :
    (List.replicate k c ++ xs).dropWhile (fun x => x = c) =
      xs.dropWhile (fun x => x = c) := by
  induction k with
  | zero => simp
  | succ n ih => simp [List.replicate_succ, List.dropWhile_cons, ih]

/-- Dropping a run of a value a list free of it does not change it. -/
theorem dropWhile_of_all_ne (c : Char) (xs : List Char)
    (h : ∀ x ∈ xs, x ≠ c) : xs.dropWhile (fun x => x = c) = xs := by
  cases xs with
  | nil => simp
  | cons a t =>
    have : a ≠ c := h a (by simp)
    simp [List.dropWhile_cons, this]

/-- Stripping trailing padding from a padded pad-free list recovers it. -/
theorem rstripEq_append_pad (xs : List Char) (k : Nat)
    (h : ∀ c ∈ xs, c ≠ Char.ofNat 61) :
    rstripEq (xs ++ List.replicate k (Char.ofNat 61)) = xs := by
  unfold rstripEq
  rw [List.reverse_append, List.reverse_replicate, dropWhile_replicate_append,
    dropWhile_of_all_ne]
  · exact List.reverse_reverse xs
  · intro x hx
    exact h x (List.mem_reverse.mp hx)

/-- Decoding a padded encoding recovers the bytes. -/
theorem decodeQuartets_encodeQuartets (l : List Nat) :
    (∀ x ∈ l, x < 256) → decodeQuartets (encodeQuartets l) = some l := by
  induction l using encodeQuartets.induct with
  | case1 => intro _; simp [encodeQuartets, decodeQuartets]
  | case2 a =>
    intro h
    have ha : a < 256 := h a (by simp)
    have hv1 : b64Val (b64Char (a / 4)) = some (a / 4) :=
      b64Val_b64Char _ (by omega)
    have hv2 : b64Val (b64Char (a % 4 * 16)) = some (a % 4 * 16) :=
      b64Val_b64Char _ (by omega)
    simp only [encodeQuartets, decodeQuartets, hv1, hv2]
    norm_num
    omega
  | case3 a b =>
    intro h
    have ha : a < 256 := h a (by simp)
    have hb : b < 256 := h b (by simp)
    have hp3 : b64Char (b % 16 * 4) ≠ Char.ofNat 61 :=
      b64Char_ne_pad _ (by omega)
    have hv1 : b64Val (b64Char (a / 4)) = some (a / 4) :=
      b64Val_b64Char _ (by omega)
    have hv2 : b64Val (b64Char (a % 4 * 16 + b / 16)) = some (a % 4 * 16 + b / 16) :=
      b64Val_b64Char _ (by omega)
    have hv3 : b64Val (b64Char (b % 16 * 4)) = some (b % 16 * 4) :=
      b64Val_b64Char _ (by omega)
    simp only [encodeQuartets, decodeQuartets, hp3, hv1, hv2, hv3]
    norm_num
    constructor
    · omega
    · omega
  | case4 a b c rest ih =>
    intro h
    have ha : a < 256 := h a (by simp)
    have hb : b < 256 := h b (by simp)
    have hc : c < 256 := h c (by simp)
    have ihr := ih (fun x hx => h x (by simp [hx]))
    have hp3 : b64Char (b % 16 * 4 + c / 64) ≠ Char.ofNat 61 :=
      b64Char_ne_pad _ (by omega)
    have hp4 : b64Char (c % 64) ≠ Char.ofNat 61 :=
      b64Char_ne_pad _ (by omega)
    have hv1 : b64Val (b64Char (a / 4)) = some (a / 4) :=
      b64Val_b64Char _ (by omega)
    have hv2 : b64Val (b64Char (a % 4 * 16 + b / 16)) = some (a % 4 * 16 + b / 16) :=
      b64Val_b64Char _ (by omega)
    have hv3 : b64Val (b64Char (b % 16 * 4 + c / 64)) = some (b % 16 * 4 + c / 64) :=
      b64Val_b64Char _ (by omega)
    have hv4 : b64Val (b64Char (c % 64)) = some (c % 64) :=
      b64Val_b64Char _ (by omega)
    simp only [encodeQuartets, decodeQuartets, hp3, hp4, hv1, hv2, hv3, hv4, ihr]
    norm_num
    refine ⟨by omega, by omega, by omega⟩

/-- The encoder output is exactly the pad-free core. -/
theorem b64urlEncode_eq_core (l : List Nat) (h : ∀ x ∈ l, x < 256) :
    b64urlEncode l = String.mk (encodeCore l) := by
  unfold b64urlEncode
  rw [encodeQuartets_eq_core_pad, rstripEq_append_pad _ _ (encodeCore_ne_pad l h)]

/-- Unfolding of the decoder wrapper on an explicit character list. -/
theorem b64urlDecode_mk (cs : List Char) :
    b64urlDecode (String.mk cs) =
      decodeQuartets (cs ++ List.replicate ((4 - cs.length % 4) % 4) (Char.ofNat 61)) :=
  rfl

/-- C10: the base64url helpers round-trip — for every byte string `b`,
`_b64url_decode(_b64url_encode(b)) == b`, the encoder emits no `=`
padding, and the decoder accepts the unpadded text by re-adding the
padding. -/
theorem b64url_encode_decode_roundtrip (b : List Nat) (h : ∀ x ∈ b, x < 256) :
    b64urlDecode (b64urlEncode b) = some b ∧
      ∀ c ∈ (b64urlEncode b).toList, c ≠ Char.ofNat 61 := by
  constructor
  · rw [b64urlEncode_eq_core b h, b64urlDecode_mk]
    have hlen : (4 - (encodeCore b).length % 4) % 4 = padCount b :=
      (padCount_eq_mod b).symm
    rw [hlen, ← encodeQuartets_eq_core_pad]
    exact decodeQuartets_encodeQuartets b h
  · rw [b64urlEncode_eq_core b h]
    exact encodeCore_ne_pad b h

/-- Witness for C10 at a concrete byte string. -/
theorem b64url_encode_decode_roundtrip_witness :
    b64urlDecode (b64urlEncode [0, 1, 77, 128, 255]) = some [0, 1, 77, 128, 255] ∧
      ∀ c ∈ (b64urlEncode [0, 1, 77, 128, 255]).toList, c ≠ Char.ofNat 61 :=
  b64url_encode_decode_roundtrip [0, 1, 77, 128, 255] (by decide)

/-! ## Signature verification properties (C4, C5) -/

/-- Replace the four batch-metadata fields of a `BatchReceipt`, leaving
every signed field fixed. -/
def withBatchMeta (r : BatchReceipt) (rt : String) (bs : Option BatchReceiptSummary)
    (d : Option String) (t : Option (List String)) : BatchReceipt :=
  { r with receipt_type := rt, batch_summary := bs, description := d, tags := t }

/-- C4: `receipt_type`, `batch_summary`, `description` and `tags` are
not part of the canonical bytes that are signed or verified — replacing
all four (hence any) of them on a `BatchReceipt` changes neither the
canonical payload nor the verification verdict. -/
theorem verify_ignores_batch_metadata (impl : Ed25519Impl) (settings : Settings)
    (r : BatchReceipt) (rt : String) (bs : Option BatchReceiptSummary)
    (d : Option String) (t : Option (List String)) :
    canonicalReceiptJson (withBatchMeta r rt bs d t).toUnsignedReceipt =
      canonicalReceiptJson r.toUnsignedReceipt ∧
    verifySignature impl settings (withBatchMeta r rt bs d t) =
      verifySignature impl settings r :=
  ⟨rfl, rfl⟩

/-- C5: verification is a total boolean — it is `false` whenever the
signature is missing or lacks the `ed25519:` prefix or the public key is
unconfigured or any decode step fails, and it can only be `true` when
every step of the pipeline succeeded (so no malformed input propagates a
fault). -/
theorem verify_total_on_failure (impl : Ed25519Impl) (settings : Settings)
    (r : BatchReceipt) :
    (r.signature = none → verifySignature impl settings r = false) ∧
    (∀ s, r.signature = some s → s.startsWith "ed25519:" = false →
      verifySignature impl settings r = false) ∧
    (strFalsy settings.receipts_public_key_base64 = true →
      verifySignature impl settings r = false) ∧
    (∀ p, settings.receipts_public_key_base64 = some p → b64urlDecode p = none →
      verifySignature impl settings r = false) ∧
    (∀ p pk, settings.receipts_public_key_base64 = some p →
      b64urlDecode p = some pk → pk.length ≠ 32 →
      verifySignature impl settings r = false) ∧
    (∀ s, r.signature = some s → b64urlDecode (s.drop 8) = none →
      verifySignature impl settings r = false) ∧
    (verifySignature impl settings r = true →
      ∃ s p pk sb, r.signature = some s ∧ s.startsWith "ed25519:" = true ∧
        settings.receipts_public_key_base64 = some p ∧
        b64urlDecode p = some pk ∧ pk.length = 32 ∧
        b64urlDecode (s.drop 8) = some sb ∧ sb.length = 64 ∧
        impl.verify pk (canonicalReceiptJson r.toUnsignedReceipt) sb = true) := by
  refine ⟨?_, ?_, ?_, ?_, ?_, ?_, ?_⟩
  · intro h
    simp [verifySignature, h]
  · intro s hs hpre
    simp [verifySignature, hs, hpre]
  · intro h
    cases hsig : r.signature with
    | none => simp [verifySignature, hsig]
    | some s =>
      cases hpub : settings.receipts_public_key_base64 with
      | none => simp [verifySignature, hsig, hpub]
      | some p =>
        have hp : p = "" := by simpa [strFalsy, hpub] using h
        simp [verifySignature, hsig, hpub, hp]
  · intro p hpub hdec
    cases hsig : r.signature with
    | none => simp [verifySignature, hsig]
    | some s =>
      by_cases hp : p = ""
      · simp [verifySignature, hsig, hpub, hp]
      · simp [verifySignature, hsig, hpub, hp, hdec]
  · intro p pk hpub hdec hlen
    cases hsig : r.signature with
    | none => simp [verifySignature, hsig]
    | some s =>
      by_cases hp : p = ""
      · simp [verifySignature, hsig, hpub, hp]
      · simp [verifySignature, hsig, hpub, hp, hdec, hlen]
  · intro s hs hdec
    cases hpub : settings.receipts_public_key_base64 with
    | none => simp [verifySignature, hs, hpub]
    | some p =>
      by_cases hp : p = ""
      · simp [verifySignature, hs, hpub, hp]
      · cases hdp : b64urlDecode p with
        | none => simp [verifySignature, hs, hpub, hp, hdp]
        | some pk =>
          by_cases hl : pk.length = 32
          · simp [verifySignature, hs, hpub, hp, hdp, hl, hdec]
          · simp [verifySignature, hs, hpub, hp, hdp, hl]
  · intro htrue
    cases hsig : r.signature with
    | none => simp [verifySignature, hsig] at htrue
    | some s =>
      by_cases he : s = ""
      · simp [verifySignature, hsig, he] at htrue
      · by_cases hpre : s.startsWith "ed25519:"
        · cases hpub : settings.receipts_public_key_base64 with
          | none => simp [verifySignature, hsig, he, hpre, hpub] at htrue
          | some p =>
            by_cases hp : p = ""
            · simp [verifySignature, hsig, he, hpre, hpub, hp] at htrue
            · cases hdp : b64urlDecode p with
              | none => simp [verifySignature, hsig, he, hpre, hpub, hp, hdp] at htrue
              | some pk =>
                by_cases hl : pk.length = 32
                · cases hds : b64urlDecode (s.drop 8) with
                  | none =>
                    simp [verifySignature, hsig, he, hpre, hpub, hp, hdp, hl, hds]
                      at htrue
                  | some sb =>
                    by_cases hsl : sb.length = 64
                    · simp only [verifySignature, hsig, he, hpre, hpub, hp, hdp, hl,
                        hds, hsl] at htrue
                      refine ⟨s, p, pk, sb, rfl, by simp [hpre], rfl, hdp, hl, hds,
                        hsl, ?_⟩
                      simpa [verifySignature, hsig, he, hpre, hpub, hp, hdp, hl,
                        hds, hsl] using htrue
                    · simp [verifySignature, hsig, he, hpre, hpub, hp, hdp, hl, hds,
                        hsl] at htrue
                · simp [verifySignature, hsig, he, hpre, hpub, hp, hdp, hl] at htrue
        · simp [verifySignature, hsig, he, hpre] at htrue

/-! ## Concrete sample values used by witnesses and counterexamples -/

/-- A stand-in for the external Ed25519 library in concrete runs:
a constant 64-byte signature and an always-accepting verifier. -/
def trivialEd25519 : Ed25519Impl :=
  { sign := fun _ _ => List.replicate 64 0
    verify := fun _ _ _ => true }

/-- Settings with no key material configured. -/
def settingsNoKeys : Settings :=
  { receipts_private_key_base64 := none
    receipts_public_key_base64 := none
    receipts_key_id := none }

/-- Settings with a valid 32-byte signing/verification keypair. -/
def settingsWithKeys : Settings :=
  { receipts_private_key_base64 := some (b64urlEncode (List.replicate 32 1))
    receipts_public_key_base64 := some (b64urlEncode (List.replicate 32 2))
    receipts_key_id := some "key_test" }

/-- The single-call receipt payload of the specification's example
scenario (`gpt-4o`, 20/15 tokens, 0.002/0.0015 USD). -/
def sampleUnsigned : UnsignedReceipt :=
  { receipt_id := "rcpt_0001"
    timestamp := 5
    «alias» := "fast"
    profile := "default"
    lock_digest := ""
    provider := "openai"
    model := "gpt-4o"
    prompt_tokens := 20
    completion_tokens := 15
    total_tokens := 35
    input_cost := 1 / 500
    output_cost := 3 / 2000
    total_cost := 7 / 2000 }

/-- The sample payload as an unsigned `BatchReceipt`. -/
def sampleNoSigReceipt : BatchReceipt :=
  { toUnsignedReceipt := sampleUnsigned
    signature := none
    receipt_type := "single"
    batch_summary := none
    description := none
    tags := none }

/-- The sample payload carrying a signature with a foreign prefix. -/
def sampleBadPrefixReceipt : BatchReceipt :=
  { sampleNoSigReceipt with signature := some "rsa:abc" }

/-- Witness for C5: a missing signature and a foreign signature prefix
are both rejected with `false` on concrete inputs. -/
theorem verify_total_on_failure_witness :
    verifySignature trivialEd25519 settingsNoKeys sampleNoSigReceipt = false ∧
    verifySignature trivialEd25519 settingsNoKeys sampleBadPrefixReceipt = false :=
  ⟨(verify_total_on_failure trivialEd25519 settingsNoKeys sampleNoSigReceipt).1 rfl,
   (verify_total_on_failure trivialEd25519 settingsNoKeys sampleBadPrefixReceipt).2.1
     "rsa:abc" rfl (by decide)⟩

/-! ## ReceiptStore owner isolation (C8) -/

/-- C8: `get_receipt` is owner-scoped — when every stored row carrying
the requested receipt id belongs to a different owner `B`, the lookup
under owner `A` yields `None`, indistinguishable from the receipt not
existing. -/
theorem get_receipt_owner_isolation (db : Db) (receipt_id A B : String)
    (hAB : A ≠ B)
    (h : ∀ row ∈ db.receipts, row.receipt_id = receipt_id → row.api_key_id = B) :
    getReceipt db receipt_id A = none := by
  unfold getReceipt
  have hfind : db.receipts.find?
      (fun row => row.receipt_id = receipt_id ∧ row.api_key_id = A) = none := by
    rw [List.find?_eq_none]
    intro row hrow
    simp only [decide_eq_true_eq, not_and]
    intro hid hkey
    exact hAB (hkey ▸ h row hrow hid)
  rw [hfind]

/-- A stored receipt row belonging to owner `owner-b`. -/
def sampleReceiptRowB : ReceiptRow :=
  { receipt_id := "rcpt_0001"
    api_key_id := "owner-b"
    model := "gpt-4o"
    provider := "openai"
    «alias» := "fast"
    profile := "default"
    lock_digest := ""
    signature := some "ed25519:sig"
    receipt_timestamp := 5
    conversation_id := none
    tokens_input := 20
    tokens_output := 15
    cost_input := 1 / 500
    cost_output := 3 / 2000
    cost_total := 7 / 2000
    receipt_type := none
    batch_summary := none
    description := none
    tags := none }

/-- A store holding exactly one receipt, owned by `owner-b`. -/
def dbOwnerB : Db :=
  { conversations := []
    usage_logs := []
    messages := []
    receipts := [sampleReceiptRowB]
    receipt_logs := [] }

/-- Witness for C8: the `owner-b` receipt is invisible to `owner-a`. -/
theorem get_receipt_owner_isolation_witness :
    getReceipt dbOwnerB "rcpt_0001" "owner-a" = none :=
  get_receipt_owner_isolation dbOwnerB "rcpt_0001" "owner-a" "owner-b"
    (by decide) (by decide)

/-! ## Key-id derivation (C9) -/

/-- A hexadecimal SHA-256 digest always has 64 characters. -/
theorem sha256HexChars_length (msg : List Nat) :
    (sha256HexChars msg).length = 64 := by
  simp [sha256HexChars, wordHex]

/-- Counterexample for C9: for the public key text `QUJD`, the derived
key identifier is not the bare first-16-hex-characters string — the
source prepends `key_` to the truncated digest. -/
theorem derive_key_id_not_bare_hex :
    deriveKeyId "QUJD" ≠
      String.mk ((sha256HexChars (asciiBytes "QUJD")).take 16) := by
  intro h
  have h1 := congrArg String.length h
  simp only [deriveKeyId, String.length, List.length_append, List.length_take] at h1
  rw [sha256HexChars_length] at h1
  exact absurd h1 (by decide)

/-- C9 (amended): `ensure_receipt_keys`, when it has to install a
keypair and no key id is configured, derives the key id as the string
`key_` followed by the first 16 hexadecimal characters of the SHA-256
digest of the public key's base64 text. -/
theorem ensure_receipt_keys_key_id (settings : Settings)
    (fileContent : Option String) (freshPriv freshPub : List Nat) (s1 : Settings)
    (hmiss : strFalsy settings.receipts_private_key_base64 = true ∨
      strFalsy settings.receipts_public_key_base64 = true)
    (hnoid : strFalsy settings.receipts_key_id = true)
    (hok : ensureReceiptKeys settings fileContent freshPriv freshPub = .ok s1) :
    ∃ pub, s1.receipts_public_key_base64 = some pub ∧
      s1.receipts_key_id =
        some (String.mk ("key_".toList ++
          (sha256HexChars (asciiBytes pub)).take 16)) := by
  unfold ensureReceiptKeys at hok
  rw [if_pos (by simpa using hmiss)] at hok
  cases hload : loadOrGenerateKeypair fileContent freshPriv freshPub with
  | error e => rw [hload] at hok; exact absurd hok (by simp)
  | ok pair =>
    obtain ⟨priv, pub⟩ := pair
    rw [hload] at hok
    simp only at hok
    rw [if_pos (by simpa [strFalsy] using hnoid)] at hok
    injection hok with hs
    subst hs
    exact ⟨pub, rfl, rfl⟩

/-- Witness for C9 at concrete inputs: no keys configured, no key file,
fresh keypair material of all-ones and all-twos. -/
theorem ensure_receipt_keys_key_id_witness :
    ∃ pub,
      (Settings.mk (some (b64urlEncode (List.replicate 32 1)))
        (some (b64urlEncode (List.replicate 32 2)))
        (some (deriveKeyId (b64urlEncode (List.replicate 32 2))))).receipts_public_key_base64
        = some pub ∧
      (Settings.mk (some (b64urlEncode (List.replicate 32 1)))
        (some (b64urlEncode (List.replicate 32 2)))
        (some (deriveKeyId (b64urlEncode (List.replicate 32 2))))).receipts_key_id =
        some (String.mk ("key_".toList ++
          (sha256HexChars (asciiBytes pub)).take 16)) :=
  ensure_receipt_keys_key_id settingsNoKeys none
    (List.replicate 32 1) (List.replicate 32 2) _ (by simp [settingsNoKeys, strFalsy])
    (by simp [settingsNoKeys, strFalsy]) rfl

/-! ## Keypair loading (C7) -/

/-- Counterexample for C7: a key file whose content is a single line —
malformed per the claim — does not produce a `KeyLoadError`; the length
guard falls through and a fresh keypair is generated and returned. -/
theorem load_single_line_no_error :
    loadOrGenerateKeypair (some "justoneline")
        (List.replicate 32 1) (List.replicate 32 2) =
      .ok (b64urlEncode (List.replicate 32 1), b64urlEncode (List.replicate 32 2)) :=
  rfl

/-- C7 (amended): with an existing key file of at least two lines, any
line failing Ed25519 key validation raises the load error, and the
well-formed case returns the two stripped lines; with fewer than two
lines no error is raised — a fresh keypair is generated and returned. -/
theorem load_or_generate_keypair_cases (content : String)
    (freshPriv freshPub : List Nat) :
    (∀ l, splitOnChar (Char.ofNat 10) (stripChars content.toList) = [l] →
      loadOrGenerateKeypair (some content) freshPriv freshPub =
        .ok (b64urlEncode freshPriv, b64urlEncode freshPub)) ∧
    (∀ l1 l2 rest,
      splitOnChar (Char.ofNat 10) (stripChars content.toList) = l1 :: l2 :: rest →
      ¬ (isValidKeyB64 (String.mk (stripChars l1)) = true ∧
         isValidKeyB64 (String.mk (stripChars l2)) = true) →
      loadOrGenerateKeypair (some content) freshPriv freshPub =
        .error "Failed to load keypair") ∧
    (∀ l1 l2 rest,
      splitOnChar (Char.ofNat 10) (stripChars content.toList) = l1 :: l2 :: rest →
      isValidKeyB64 (String.mk (stripChars l1)) = true →
      isValidKeyB64 (String.mk (stripChars l2)) = true →
      loadOrGenerateKeypair (some content) freshPriv freshPub =
        .ok (String.mk (stripChars l1), String.mk (stripChars l2))) := by
  refine ⟨?_, ?_, ?_⟩
  · intro l hl
    simp only [loadOrGenerateKeypair]
    rw [hl]
  · intro l1 l2 rest hlines hbad
    simp only [loadOrGenerateKeypair]
    rw [hlines]
    simp only
    rw [if_neg (by simpa using hbad)]
  · intro l1 l2 rest hlines h1 h2
    simp only [loadOrGenerateKeypair]
    rw [hlines]
    simp only
    rw [if_pos (by simp [h1, h2])]

/-- Witness for C7: a two-line file of non-key text fails the load, a
one-line file silently falls back to fresh key generation. -/
theorem load_or_generate_keypair_cases_witness :
    loadOrGenerateKeypair (some (String.mk
        ("bad1".toList ++ [Char.ofNat 10] ++ "bad2".toList)))
        (List.replicate 32 1) (List.replicate 32 2) =
      .error "Failed to load keypair" ∧
    loadOrGenerateKeypair (some "justone")
        (List.replicate 32 1) (List.replicate 32 2) =
      .ok (b64urlEncode (List.replicate 32 1), b64urlEncode (List.replicate 32 2)) :=
  ⟨(load_or_generate_keypair_cases (String.mk
        ("bad1".toList ++ [Char.ofNat 10] ++ "bad2".toList))
      (List.replicate 32 1) (List.replicate 32 2)).2.1
      "bad1".toList "bad2".toList [] (by decide) (by decide),
   (load_or_generate_keypair_cases "justone"
      (List.replicate 32 1) (List.replicate 32 2)).1 "justone".toList (by decide)⟩

/-! ## Receipt arithmetic (C2) -/

/-- A store with no rows. -/
def emptyDb : Db :=
  { conversations := [], usage_logs := [], messages := [], receipts := [],
    receipt_logs := [] }

/-- A single usage-log candidate with cost 1. -/
def costOneLog : LogEntry :=
  { id := 7
    type := "usage"
    «alias» := "fast"
    provider := "openai"
    model := "gpt-4o"
    input_tokens := 20
    output_tokens := 15
    cost := 1
    timestamp := 3 }

/-- Signing always succeeds under `settingsWithKeys`, with the prefixed
encoded signature. -/
theorem issueSignature_settingsWithKeys (impl : Ed25519Impl)
    (payload : UnsignedReceipt) :
    issueSignature impl settingsWithKeys payload =
      .ok ("ed25519:" ++ b64urlEncode
        (impl.sign (List.replicate 32 1) (canonicalReceiptJson payload))) := by
  unfold issueSignature settingsWithKeys
  simp only
  rw [if_neg (by decide)]
  rw [show b64urlDecode (b64urlEncode (List.replicate 32 1)) =
    some (List.replicate 32 1) from by decide]
  simp only
  rw [if_neg (by decide)]

/-- Fallback-extraction of the receipt of a single-call result. -/
def extractReceipt (e : Except String (Receipt × Db)) : Receipt :=
  match e with
  | .ok pr => pr.1
  | .error _ => { toUnsignedReceipt := sampleUnsigned, signature := none }

/-- Fallback-extraction of the store of a single-call result. -/
def extractReceiptDb (e : Except String (Receipt × Db)) : Db :=
  match e with
  | .ok pr => pr.2
  | .error _ => emptyDb

/-- Fallback-extraction of the receipt of an on-demand result. -/
def extractBatch (e : Except String (BatchReceipt × Db)) : BatchReceipt :=
  match e with
  | .ok pr => pr.1
  | .error _ => sampleNoSigReceipt

/-- Fallback-extraction of the store of an on-demand result. -/
def extractBatchDb (e : Except String (BatchReceipt × Db)) : Db :=
  match e with
  | .ok pr => pr.2
  | .error _ => emptyDb

/-- Counterexample for C2: the single-log on-demand receipt built from a
candidate of cost 1 carries `total_cost = 1` but
`input_cost = output_cost = 0` (the source hardcodes the zero split), so
`total_cost = input_cost + output_cost` fails on a produced receipt. -/
theorem batch_receipt_cost_split_cex :
    (extractBatch (createBatchReceipt trivialEd25519 settingsWithKeys "rcpt_b1" 9
      emptyDb "k" [costOneLog] "mixed" none none)).total_cost ≠
    (extractBatch (createBatchReceipt trivialEd25519 settingsWithKeys "rcpt_b1" 9
      emptyDb "k" [costOneLog] "mixed" none none)).input_cost +
    (extractBatch (createBatchReceipt trivialEd25519 settingsWithKeys "rcpt_b1" 9
      emptyDb "k" [costOneLog] "mixed" none none)).output_cost := by
  simp only [createBatchReceipt, issueSignature_settingsWithKeys, extractBatch]
  simp [sumCost, costOneLog]

/-- C2 (amended): every receipt from `generate_and_sign_receipt`
satisfies both arithmetic identities; every on-demand receipt satisfies
the token identity, but its `input_cost` and `output_cost` are the
constant 0 while `total_cost` is the summed candidate cost, so the cost
identity holds only when that sum is zero. -/
theorem produced_receipt_arithmetic
    (impl : Ed25519Impl) (settings : Settings) (rid : String) (now : Nat)
    (db : Db) (api_key_id a p l pr m : String) (pt ct : Nat) (ic oc : ℚ)
    (cid : Option Nat) (r : Receipt) (db1 : Db)
    (logs : List LogEntry) (lt : String) (d : Option String)
    (t : Option (List String)) (rb : BatchReceipt) (db2 : Db) :
    (generateAndSignReceipt impl settings rid now db api_key_id a p l pr m
        pt ct ic oc cid = .ok (r, db1) →
      r.total_tokens = r.prompt_tokens + r.completion_tokens ∧
        r.total_cost = r.input_cost + r.output_cost) ∧
    (createBatchReceipt impl settings rid now db api_key_id logs lt d t =
        .ok (rb, db2) →
      rb.total_tokens = rb.prompt_tokens + rb.completion_tokens ∧
        rb.input_cost = 0 ∧ rb.output_cost = 0 ∧ rb.total_cost = sumCost logs) := by
  constructor
  · intro h
    simp only [generateAndSignReceipt] at h
    split at h
    · exact absurd h (by simp)
    · injection h with h2
      injection h2 with hr hdb
      subst hr
      exact ⟨rfl, rfl⟩
  · intro h
    simp only [createBatchReceipt] at h
    split at h
    · exact absurd h (by simp)
    · injection h with h2
      injection h2 with hr hdb
      subst hr
      exact ⟨rfl, rfl, rfl, rfl⟩

/-- Witness for C2 on concrete successful runs of both constructors. -/
theorem produced_receipt_arithmetic_witness :
    ((extractReceipt (generateAndSignReceipt trivialEd25519 settingsWithKeys
        "rcpt_1" 5 emptyDb "k" "fast" "default" "" "openai" "gpt-4o"
        20 15 (1 / 500) (3 / 2000) none)).total_tokens =
      (extractReceipt (generateAndSignReceipt trivialEd25519 settingsWithKeys
        "rcpt_1" 5 emptyDb "k" "fast" "default" "" "openai" "gpt-4o"
        20 15 (1 / 500) (3 / 2000) none)).prompt_tokens +
      (extractReceipt (generateAndSignReceipt trivialEd25519 settingsWithKeys
        "rcpt_1" 5 emptyDb "k" "fast" "default" "" "openai" "gpt-4o"
        20 15 (1 / 500) (3 / 2000) none)).completion_tokens ∧
      (extractReceipt (generateAndSignReceipt trivialEd25519 settingsWithKeys
        "rcpt_1" 5 emptyDb "k" "fast" "default" "" "openai" "gpt-4o"
        20 15 (1 / 500) (3 / 2000) none)).total_cost =
      (extractReceipt (generateAndSignReceipt trivialEd25519 settingsWithKeys
        "rcpt_1" 5 emptyDb "k" "fast" "default" "" "openai" "gpt-4o"
        20 15 (1 / 500) (3 / 2000) none)).input_cost +
      (extractReceipt (generateAndSignReceipt trivialEd25519 settingsWithKeys
        "rcpt_1" 5 emptyDb "k" "fast" "default" "" "openai" "gpt-4o"
        20 15 (1 / 500) (3 / 2000) none)).output_cost) ∧
    ((extractBatch (createBatchReceipt trivialEd25519 settingsWithKeys
        "rcpt_b1" 9 emptyDb "k" [costOneLog] "mixed" none none)).total_tokens =
      (extractBatch (createBatchReceipt trivialEd25519 settingsWithKeys
        "rcpt_b1" 9 emptyDb "k" [costOneLog] "mixed" none none)).prompt_tokens +
      (extractBatch (createBatchReceipt trivialEd25519 settingsWithKeys
        "rcpt_b1" 9 emptyDb "k" [costOneLog] "mixed" none none)).completion_tokens ∧
      (extractBatch (createBatchReceipt trivialEd25519 settingsWithKeys
        "rcpt_b1" 9 emptyDb "k" [costOneLog] "mixed" none none)).input_cost = 0 ∧
      (extractBatch (createBatchReceipt trivialEd25519 settingsWithKeys
        "rcpt_b1" 9 emptyDb "k" [costOneLog] "mixed" none none)).output_cost = 0 ∧
      (extractBatch (createBatchReceipt trivialEd25519 settingsWithKeys
        "rcpt_b1" 9 emptyDb "k" [costOneLog] "mixed" none none)).total_cost =
      sumCost [costOneLog]) :=
  ⟨(produced_receipt_arithmetic trivialEd25519 settingsWithKeys "rcpt_1" 5 emptyDb
      "k" "fast" "default" "" "openai" "gpt-4o" 20 15 (1 / 500) (3 / 2000) none
      (extractReceipt (generateAndSignReceipt trivialEd25519 settingsWithKeys
        "rcpt_1" 5 emptyDb "k" "fast" "default" "" "openai" "gpt-4o"
        20 15 (1 / 500) (3 / 2000) none))
      (extractReceiptDb (generateAndSignReceipt trivialEd25519 settingsWithKeys
        "rcpt_1" 5 emptyDb "k" "fast" "default" "" "openai" "gpt-4o"
        20 15 (1 / 500) (3 / 2000) none))
      [] "" none none sampleNoSigReceipt emptyDb).1 rfl,
   (produced_receipt_arithmetic trivialEd25519 settingsWithKeys "rcpt_b1" 9 emptyDb
      "k" "" "" "" "" "" 0 0 0 0 none
      (extractReceipt (generateAndSignReceipt trivialEd25519 settingsWithKeys
        "rcpt_1" 5 emptyDb "k" "fast" "default" "" "openai" "gpt-4o"
        20 15 (1 / 500) (3 / 2000) none))
      emptyDb [costOneLog] "mixed" none none
      (extractBatch (createBatchReceipt trivialEd25519 settingsWithKeys
        "rcpt_b1" 9 emptyDb "k" [costOneLog] "mixed" none none))
      (extractBatchDb (createBatchReceipt trivialEd25519 settingsWithKeys
        "rcpt_b1" 9 emptyDb "k" [costOneLog] "mixed" none none))).2 rfl⟩

/-! ## Mode dispatch and validation (C3) -/

/-- A request supplying all four selection criteria at once. -/
def multiCriteriaReq : ReceiptGenerationRequest :=
  { conversation_id := some 1
    start_date := some 0
    end_date := some 10
    log_ids := some [1]
    since_last_receipt := true
    description := none
    tags := none }

/-- A request supplying no selection criterion. -/
def noCriteriaReq : ReceiptGenerationRequest :=
  { conversation_id := none
    start_date := none
    end_date := none
    log_ids := none
    since_last_receipt := false
    description := none
    tags := none }

/-- A conversation row owned by `k`. -/
def convRow1 : ConversationRow :=
  { id := 1
    api_key_id := "k"
    model_alias := some "fast"
    total_input_tokens := some 20
    total_output_tokens := some 15
    total_cost := some 1
    created_at := 4 }

/-- A store holding exactly one conversation, owned by `k`. -/
def dbConv1 : Db :=
  { conversations := [convRow1]
    usage_logs := []
    messages := []
    receipts := []
    receipt_logs := [] }

/-- Counterexample for C3: a request supplying all four criteria at once
does not fail with a `ValidationError` — generation succeeds (the
`if`/`elif` chain silently picks the conversation mode) and certifies
one record. -/
theorem generate_multi_criteria_no_error :
    (generateOnDemandReceipt trivialEd25519 settingsWithKeys "rcpt_c3" 9 dbConv1
      "k" multiCriteriaReq).isOk = true ∧
    (generateOnDemandReceipt trivialEd25519 settingsWithKeys "rcpt_c3" 9 dbConv1
      "k" multiCriteriaReq).toOption.map (fun p => p.2.1) = some 1 := by
  constructor
  · rfl
  · rfl

/-- C3 (amended): generation fails with the `ValueError` asking for a
criterion exactly when none is supplied; with several criteria supplied
the highest-priority one wins (`conversation_id`, then the date range,
then `log_ids`, then `since_last_receipt`); and an empty selection fails
with the no-logs `ValueError`. -/
theorem generate_criteria_dispatch (impl : Ed25519Impl) (settings : Settings)
    (rid : String) (now : Nat) (db : Db) (k : String)
    (req : ReceiptGenerationRequest) :
    (req.conversation_id = none →
      (req.start_date = none ∨ req.end_date = none) →
      (req.log_ids = none ∨ req.log_ids = some []) →
      req.since_last_receipt = false →
      generateOnDemandReceipt impl settings rid now db k req =
        .error
          "Must specify one of: conversation_id, date range, log_ids, or since_last_receipt") ∧
    (selectLogs db k req = .ok [] →
      generateOnDemandReceipt impl settings rid now db k req =
        .error "No logs found matching the criteria") ∧
    (∀ cid, req.conversation_id = some cid →
      selectLogs db k req = .ok (fetchConversationLogs db k cid)) ∧
    (∀ sd ed, req.conversation_id = none → req.start_date = some sd →
      req.end_date = some ed →
      selectLogs db k req = .ok (fetchLogsByDateRange db k sd ed)) := by
  refine ⟨?_, ?_, ?_, ?_⟩
  · intro h1 h2 h3 h4
    have hsel : selectLogs db k req =
        .error
          "Must specify one of: conversation_id, date range, log_ids, or since_last_receipt" := by
      unfold selectLogs
      rw [h1]
      have hlog : ∀ rest : Except String (List LogEntry),
          (match req.log_ids with
            | some (i :: is) => Except.ok (fetchLogsByIds db k (i :: is))
            | _ => rest) = rest := by
        intro rest
        rcases h3 with h3 | h3 <;> rw [h3]
      cases hs : req.start_date with
      | none => rw [hlog]; simp [h4]
      | some s =>
        cases he : req.end_date with
        | none => rw [hlog]; simp [h4]
        | some e =>
          rcases h2 with h2 | h2
          · rw [h2] at hs; exact absurd hs (by simp)
          · rw [h2] at he; exact absurd he (by simp)
    unfold generateOnDemandReceipt
    rw [hsel]
  · intro hsel
    unfold generateOnDemandReceipt
    rw [hsel]
    simp
  · intro cid hcid
    unfold selectLogs
    rw [hcid]
  · intro sd ed h1 hsd hed
    unfold selectLogs
    rw [h1, hsd, hed]

/-- A request supplying exactly the date-range criterion. -/
def dateRangeReq : ReceiptGenerationRequest :=
  { conversation_id := none
    start_date := some 0
    end_date := some 10
    log_ids := none
    since_last_receipt := false
    description := none
    tags := none }

/-- Witness for C3: a criterion-less request raises the validation
error; a no-match date range raises the no-logs error; a multi-criterion
request selects by conversation; a pure date-range request selects by
date range. -/
theorem generate_criteria_dispatch_witness :
    generateOnDemandReceipt trivialEd25519 settingsWithKeys "rcpt_w3" 9 emptyDb
        "k" noCriteriaReq =
      .error
        "Must specify one of: conversation_id, date range, log_ids, or since_last_receipt" ∧
    generateOnDemandReceipt trivialEd25519 settingsWithKeys "rcpt_w3" 9 emptyDb
        "k" dateRangeReq = .error "No logs found matching the criteria" ∧
    selectLogs dbConv1 "k" multiCriteriaReq =
      .ok (fetchConversationLogs dbConv1 "k" 1) ∧
    selectLogs emptyDb "k" dateRangeReq =
      .ok (fetchLogsByDateRange emptyDb "k" 0 10) :=
  ⟨(generate_criteria_dispatch trivialEd25519 settingsWithKeys "rcpt_w3" 9 emptyDb
      "k" noCriteriaReq).1 rfl (Or.inl rfl) (Or.inl rfl) rfl,
   (generate_criteria_dispatch trivialEd25519 settingsWithKeys "rcpt_w3" 9 emptyDb
      "k" dateRangeReq).2.1 rfl,
   (generate_criteria_dispatch trivialEd25519 settingsWithKeys "rcpt_w3" 9 dbConv1
      "k" multiCriteriaReq).2.2.1 1 rfl,
   (generate_criteria_dispatch trivialEd25519 settingsWithKeys "rcpt_w3" 9 emptyDb
      "k" dateRangeReq).2.2.2 0 10 rfl rfl rfl⟩

/-! ## Candidate ordering (C6) -/

/-- Newest-first comparison on normalized candidates. -/
def tsGE (a b : LogEntry) : Prop := b.timestamp ≤ a.timestamp

/-- The conversation half of a selection, newest first after mapping. -/
theorem sorted_map_convEntry (l : List ConversationRow) :
    List.Sorted tsGE ((sortConvDesc l).map convEntry) := by
  haveI : IsTotal ConversationRow (fun a b => b.created_at ≤ a.created_at) :=
    ⟨fun a b => Nat.le_total b.created_at a.created_at⟩
  haveI : IsTrans ConversationRow (fun a b => b.created_at ≤ a.created_at) :=
    ⟨fun _ _ _ hab hbc => Nat.le_trans hbc hab⟩
  have hs := List.sorted_insertionSort
    (fun (a b : ConversationRow) => b.created_at ≤ a.created_at) l
  have H : ∀ a b : ConversationRow, b.created_at ≤ a.created_at →
      tsGE (convEntry a) (convEntry b) := fun _ _ h => h
  exact List.Pairwise.map convEntry H hs

/-- The usage half of a selection, newest first after mapping. -/
theorem sorted_map_usageEntry (l : List UsageRow) :
    List.Sorted tsGE ((sortUsageDesc l).map usageEntry) := by
  haveI : IsTotal UsageRow (fun a b => b.created_at ≤ a.created_at) :=
    ⟨fun a b => Nat.le_total b.created_at a.created_at⟩
  haveI : IsTrans UsageRow (fun a b => b.created_at ≤ a.created_at) :=
    ⟨fun _ _ _ hab hbc => Nat.le_trans hbc hab⟩
  have hs := List.sorted_insertionSort
    (fun (a b : UsageRow) => b.created_at ≤ a.created_at) l
  have H : ∀ a b : UsageRow, b.created_at ≤ a.created_at →
      tsGE (usageEntry a) (usageEntry b) := fun _ _ h => h
  exact List.Pairwise.map usageEntry H hs

/-- An old conversation owned by `k`. -/
def convRowOld : ConversationRow :=
  { id := 1
    api_key_id := "k"
    model_alias := some "fast"
    total_input_tokens := some 3
    total_output_tokens := some 4
    total_cost := some 1
    created_at := 1 }

/-- A newer conversation-less usage log owned by `k`. -/
def usageRowNew : UsageRow :=
  { id := 2
    api_key_id := "k"
    «alias» := some "fast"
    provider := "openai"
    model := "gpt-4o"
    input_tokens := some 5
    output_tokens := some 6
    cost := some 1
    created_at := 5
    conversation_id := none }

/-- A store where the only conversation is older than the only usage log. -/
def dbOldConvNewUsage : Db :=
  { conversations := [convRowOld]
    usage_logs := [usageRowNew]
    messages := []
    receipts := []
    receipt_logs := [] }

/-- Counterexample for C6: the merged date-range selection places the
old conversation (timestamp 1) before the newer usage log (timestamp 5),
so the full list is not newest-first across the merge. -/
theorem date_range_merge_not_sorted_cex :
    ¬ List.Sorted tsGE (fetchLogsByDateRange dbOldConvNewUsage "k" 0 10) := by
  intro h
  have hlist : fetchLogsByDateRange dbOldConvNewUsage "k" 0 10 =
      [convEntry convRowOld, usageEntry usageRowNew] := rfl
  rw [hlist] at h
  have hrel := List.rel_of_sorted_cons h (usageEntry usageRowNew) (by simp)
  have : (5 : Nat) ≤ 1 := hrel
  omega

/-- C6 (amended): for the date-range and since-last-receipt selections,
the candidate list is the conversation candidates newest-first followed
by the usage candidates newest-first — each half is sorted, but the two
halves are concatenated rather than merged by timestamp. -/
theorem selection_ordering (db : Db) (k : String) (s e : Nat) :
    (∃ A B, fetchLogsByDateRange db k s e = A ++ B ∧
      List.Sorted tsGE A ∧ List.Sorted tsGE B ∧
      (∀ x ∈ A, x.type = "conversation") ∧ (∀ x ∈ B, x.type = "usage")) ∧
    (∃ A B, fetchUncertifiedLogs db k = A ++ B ∧
      List.Sorted tsGE A ∧ List.Sorted tsGE B ∧
      (∀ x ∈ A, x.type = "conversation") ∧ (∀ x ∈ B, x.type = "usage")) := by
  constructor
  · refine ⟨_, _, rfl, sorted_map_convEntry _, sorted_map_usageEntry _, ?_, ?_⟩
    · intro x hx
      obtain ⟨row, -, rfl⟩ := List.mem_map.mp hx
      rfl
    · intro x hx
      obtain ⟨row, -, rfl⟩ := List.mem_map.mp hx
      rfl
  · refine ⟨_, _, rfl, sorted_map_convEntry _, sorted_map_usageEntry _, ?_, ?_⟩
    · intro x hx
      obtain ⟨row, -, rfl⟩ := List.mem_map.mp hx
      rfl
    · intro x hx
      obtain ⟨row, -, rfl⟩ := List.mem_map.mp hx
      rfl

/-! ## At-most-once certification (C1) -/

/-- Linking only appends: existing linkage rows survive. -/
theorem mem_foldl_insertLink (logs : List LogEntry) (links : List ReceiptLogRow)
    (rid : String) (x : ReceiptLogRow) (hx : x ∈ links) :
    x ∈ logs.foldl (fun acc log => insertLink acc rid log) links := by
  induction logs generalizing links with
  | nil => exact hx
  | cons l ls ih =>
    rw [List.foldl_cons]
    apply ih
    show x ∈ insertLink links rid l
    unfold insertLink
    split
    · exact hx
    · exact List.mem_append_left _ hx

/-- Every selected log gets its linkage row, provided the receipt id is
fresh and the selected ids are pairwise distinct (UUID uniqueness). -/
theorem insertLink_covers (rid : String) (logs : List LogEntry)
    (links : List ReceiptLogRow)
    (hinv : ∀ row ∈ links, row.receipt_id = rid → row.log_id ∉ logs.map (fun l => l.id))
    (hnodup : (logs.map (fun l => l.id)).Nodup) :
    ∀ l ∈ logs,
      ({ receipt_id := rid, log_id := l.id, log_type := l.type } : ReceiptLogRow) ∈
        logs.foldl (fun acc log => insertLink acc rid log) links := by
  induction logs generalizing links with
  | nil => intro l hl; exact absurd hl (by simp)
  | cons l0 ls ih =>
    have hnd : l0.id ∉ ls.map (fun l => l.id) ∧ (ls.map (fun l => l.id)).Nodup := by
      rw [List.map_cons, List.nodup_cons] at hnodup
      exact hnodup
    have hnolink : ¬ links.any
        (fun r => r.receipt_id = rid ∧ r.log_id = l0.id) = true := by
      intro hany
      obtain ⟨row, hrow, hprop⟩ := List.any_eq_true.mp hany
      have hprop2 := of_decide_eq_true hprop
      exact hinv row hrow hprop2.1 (by simp [List.map_cons, hprop2.2])
    have hstep : insertLink links rid l0 =
        links ++ [{ receipt_id := rid, log_id := l0.id, log_type := l0.type }] := by
      unfold insertLink
      rw [if_neg hnolink]
    have hinv2 : ∀ row ∈ links ++
        [({ receipt_id := rid, log_id := l0.id, log_type := l0.type } : ReceiptLogRow)],
        row.receipt_id = rid → row.log_id ∉ ls.map (fun l => l.id) := by
      intro row hrow hrid
      rcases List.mem_append.mp hrow with hrow1 | hrow2
      · intro hmem
        apply hinv row hrow1 hrid
        rw [List.map_cons]
        exact List.mem_cons_of_mem _ hmem
      · have hrweq : row =
            { receipt_id := rid, log_id := l0.id, log_type := l0.type } := by
          simpa using hrow2
        subst hrweq
        exact hnd.1
    intro l hl
    rcases List.mem_cons.mp hl with rfl | hl2
    · rw [List.foldl_cons]
      show _ ∈ List.foldl _ (insertLink links rid l) ls
      rw [hstep]
      exact mem_foldl_insertLink ls _ rid _ (List.mem_append_right _ (by simp))
    · rw [List.foldl_cons]
      show _ ∈ List.foldl _ (insertLink links rid l0) ls
      rw [hstep]
      exact ih _ hinv2 hnd.2 l hl2

/-- A conversation of the owner with no `conversation` linkage row is
among the uncertified candidates. -/
theorem convEntry_mem_uncertified (db : Db) (k : String) (c : ConversationRow)
    (hc : c ∈ db.conversations) (hkey : c.api_key_id = k)
    (hno : ¬ db.receipt_logs.any
      (fun rl => rl.log_id = c.id ∧ rl.log_type = "conversation") = true) :
    convEntry c ∈ fetchUncertifiedLogs db k := by
  unfold fetchUncertifiedLogs
  apply List.mem_append_left
  apply List.mem_map_of_mem
  rw [sortConvDesc, List.mem_insertionSort]
  rw [List.mem_filter]
  refine ⟨hc, ?_⟩
  simp only [hkey, decide_eq_true_eq, true_and]
  simpa using hno

/-- A usage log of the owner with no `usage` linkage row is among the
uncertified candidates. -/
theorem usageEntry_mem_uncertified (db : Db) (k : String) (u : UsageRow)
    (hu : u ∈ db.usage_logs) (hkey : u.api_key_id = k)
    (hno : ¬ db.receipt_logs.any
      (fun rl => rl.log_id = u.id ∧ rl.log_type = "usage") = true) :
    usageEntry u ∈ fetchUncertifiedLogs db k := by
  unfold fetchUncertifiedLogs
  apply List.mem_append_right
  apply List.mem_map_of_mem
  rw [sortUsageDesc, List.mem_insertionSort]
  rw [List.mem_filter]
  refine ⟨hu, ?_⟩
  simp only [hkey, decide_eq_true_eq, true_and]
  simpa using hno

/-- When every owned conversation and usage log already carries a
linkage row of its kind, the uncertified selection is empty. -/
theorem fetchUncertified_nil (db : Db) (k : String)
    (hconv : ∀ c ∈ db.conversations, c.api_key_id = k →
      ∃ row ∈ db.receipt_logs, row.log_id = c.id ∧ row.log_type = "conversation")
    (husage : ∀ u ∈ db.usage_logs, u.api_key_id = k →
      ∃ row ∈ db.receipt_logs, row.log_id = u.id ∧ row.log_type = "usage") :
    fetchUncertifiedLogs db k = [] := by
  unfold fetchUncertifiedLogs
  have h1 : db.conversations.filter
      (fun c => decide (c.api_key_id = k ∧
        ¬ db.receipt_logs.any
          (fun rl => rl.log_id = c.id ∧ rl.log_type = "conversation") = true)) = [] := by
    rw [List.filter_eq_nil_iff]
    intro c hc
    simp only [decide_eq_true_eq, not_and]
    intro hkey hno
    obtain ⟨row, hrow, hid, htype⟩ := hconv c hc hkey
    exact hno (List.any_eq_true.mpr ⟨row, hrow, by simp [hid, htype]⟩)
  have h2 : db.usage_logs.filter
      (fun u => decide (u.api_key_id = k ∧
        ¬ db.receipt_logs.any
          (fun rl => rl.log_id = u.id ∧ rl.log_type = "usage") = true)) = [] := by
    rw [List.filter_eq_nil_iff]
    intro u hu
    simp only [decide_eq_true_eq, not_and]
    intro hkey hno
    obtain ⟨row, hrow, hid, htype⟩ := husage u hu hkey
    exact hno (List.any_eq_true.mpr ⟨row, hrow, by simp [hid, htype]⟩)
  rw [h1, h2]
  simp [sortConvDesc, sortUsageDesc]

/-- The since-last-receipt branch of the mode dispatch. -/
theorem selectLogs_since_last (db : Db) (k : String)
    (req : ReceiptGenerationRequest)
    (h1 : req.conversation_id = none)
    (h2 : req.start_date = none ∨ req.end_date = none)
    (h3 : req.log_ids = none ∨ req.log_ids = some [])
    (h4 : req.since_last_receipt = true) :
    selectLogs db k req = .ok (fetchUncertifiedLogs db k) := by
  unfold selectLogs
  rw [h1]
  have hlog : ∀ rest : Except String (List LogEntry),
      (match req.log_ids with
        | some (i :: is) => Except.ok (fetchLogsByIds db k (i :: is))
        | _ => rest) = rest := by
    intro rest
    rcases h3 with h3 | h3 <;> rw [h3]
  cases hs : req.start_date with
  | none => rw [hlog]; simp [h4]
  | some s =>
    cases he : req.end_date with
    | none => rw [hlog]; simp [h4]
    | some e =>
      rcases h2 with h2 | h2
      · rw [h2] at hs; exact absurd hs (by simp)
      · rw [h2] at he; exact absurd he (by simp)

/-- Shape of a successful `_create_batch_receipt`: the receipt carries
the supplied fresh id, and the store changes only in its `receipts`
table. -/
theorem createBatchReceipt_ok_shape (impl : Ed25519Impl) (settings : Settings)
    (rid : String) (now : Nat) (db : Db) (api_key_id : String)
    (logs : List LogEntry) (lt : String) (d : Option String)
    (t : Option (List String)) (r : BatchReceipt) (db1 : Db)
    (h : createBatchReceipt impl settings rid now db api_key_id logs lt d t =
      .ok (r, db1)) :
    r.receipt_id = rid ∧ db1.conversations = db.conversations ∧
      db1.usage_logs = db.usage_logs ∧ db1.receipt_logs = db.receipt_logs := by
  simp only [createBatchReceipt] at h
  split at h
  · exact absurd h (by simp)
  · injection h with h2
    injection h2 with hr hdb
    subst hr
    subst hdb
    exact ⟨rfl, rfl, rfl, rfl⟩

/-- The date-range selection reads only the conversation and usage
tables. -/
theorem fetchLogsByDateRange_congr (dbA dbB : Db) (k : String) (s e : Nat)
    (hc : dbA.conversations = dbB.conversations)
    (hu : dbA.usage_logs = dbB.usage_logs) :
    fetchLogsByDateRange dbA k s e = fetchLogsByDateRange dbB k s e := by
  unfold fetchLogsByDateRange
  rw [hc, hu]

/-- C1 (amended): the since-last-receipt mode certifies at most once —
with a fresh receipt id and pairwise-distinct candidate ids, a second
`generate` immediately after a successful one finds nothing and fails
with the no-logs error.  The date-range mode carries no anti-join, so
its selection is unchanged by the first call (it would re-certify the
same records). -/
theorem since_last_receipt_at_most_once
    (impl : Ed25519Impl) (settings : Settings) (rid1 : String) (now1 : Nat)
    (rid2 : String) (now2 : Nat) (db : Db) (k : String)
    (req : ReceiptGenerationRequest) (r1 : BatchReceipt) (n1 : Nat) (db1 : Db)
    (h1 : req.conversation_id = none)
    (h2 : req.start_date = none ∨ req.end_date = none)
    (h3 : req.log_ids = none ∨ req.log_ids = some [])
    (h4 : req.since_last_receipt = true)
    (hfresh : ∀ row ∈ db.receipt_logs, row.receipt_id ≠ rid1)
    (hnodup : ((fetchUncertifiedLogs db k).map (fun l => l.id)).Nodup)
    (hok : generateOnDemandReceipt impl settings rid1 now1 db k req =
      .ok (r1, n1, db1)) :
    generateOnDemandReceipt impl settings rid2 now2 db1 k req =
      .error "No logs found matching the criteria" ∧
    (∀ s e, fetchLogsByDateRange db1 k s e = fetchLogsByDateRange db k s e) := by
  have hsel := selectLogs_since_last db k req h1 h2 h3 h4
  unfold generateOnDemandReceipt at hok
  rw [hsel] at hok
  simp only at hok
  by_cases hL : fetchUncertifiedLogs db k = []
  · rw [if_pos hL] at hok
    exact absurd hok (by simp)
  · rw [if_neg hL] at hok
    cases hcr : createBatchReceipt impl settings rid1 now1 db k
        (fetchUncertifiedLogs db k) (selectLogType req) req.description req.tags with
    | error e =>
      rw [hcr] at hok
      exact absurd hok (by simp)
    | ok pr =>
      obtain ⟨rc, dbA⟩ := pr
      rw [hcr] at hok
      simp only at hok
      injection hok with hok2
      injection hok2 with hr hok3
      injection hok3 with hn hdb
      have hshape := createBatchReceipt_ok_shape impl settings rid1 now1 db k
        (fetchUncertifiedLogs db k) (selectLogType req) req.description req.tags
        rc dbA hcr
      obtain ⟨hrid, hconvA, husageA, hlinksA⟩ := hshape
      have hdbconv : db1.conversations = db.conversations := by
        rw [← hdb]
        exact hconvA
      have hdbusage : db1.usage_logs = db.usage_logs := by
        rw [← hdb]
        exact husageA
      have hdblinks : db1.receipt_logs =
          (fetchUncertifiedLogs db k).foldl
            (fun acc log => insertLink acc rid1 log) db.receipt_logs := by
        rw [← hdb]
        show (fetchUncertifiedLogs db k).foldl
          (fun acc log => insertLink acc rc.receipt_id log) dbA.receipt_logs = _
        rw [hrid, hlinksA]
      have hinv0 : ∀ row ∈ db.receipt_logs, row.receipt_id = rid1 →
          row.log_id ∉ (fetchUncertifiedLogs db k).map (fun l => l.id) :=
        fun row hr hridr => absurd hridr (hfresh row hr)
      have hnil : fetchUncertifiedLogs db1 k = [] := by
        apply fetchUncertified_nil
        · intro c hc hkey
          rw [hdbconv] at hc
          by_cases hlinked : db.receipt_logs.any
              (fun rl => rl.log_id = c.id ∧ rl.log_type = "conversation") = true
          · obtain ⟨row, hrow, hp⟩ := List.any_eq_true.mp hlinked
            have hp2 := of_decide_eq_true hp
            refine ⟨row, ?_, hp2.1, hp2.2⟩
            rw [hdblinks]
            exact mem_foldl_insertLink _ _ _ _ hrow
          · have hmem := convEntry_mem_uncertified db k c hc hkey hlinked
            have hrow := insertLink_covers rid1 (fetchUncertifiedLogs db k)
              db.receipt_logs hinv0 hnodup (convEntry c) hmem
            refine ⟨{ receipt_id := rid1, log_id := c.id, log_type := "conversation" },
              ?_, rfl, rfl⟩
            rw [hdblinks]
            exact hrow
        · intro u hu hkey
          rw [hdbusage] at hu
          by_cases hlinked : db.receipt_logs.any
              (fun rl => rl.log_id = u.id ∧ rl.log_type = "usage") = true
          · obtain ⟨row, hrow, hp⟩ := List.any_eq_true.mp hlinked
            have hp2 := of_decide_eq_true hp
            refine ⟨row, ?_, hp2.1, hp2.2⟩
            rw [hdblinks]
            exact mem_foldl_insertLink _ _ _ _ hrow
          · have hmem := usageEntry_mem_uncertified db k u hu hkey hlinked
            have hrow := insertLink_covers rid1 (fetchUncertifiedLogs db k)
              db.receipt_logs hinv0 hnodup (usageEntry u) hmem
            refine ⟨{ receipt_id := rid1, log_id := u.id, log_type := "usage" },
              ?_, rfl, rfl⟩
            rw [hdblinks]
            exact hrow
      constructor
      · have hsel1 := selectLogs_since_last db1 k req h1 h2 h3 h4
        unfold generateOnDemandReceipt
        rw [hsel1, hnil]
        simp
      · intro s e
        exact fetchLogsByDateRange_congr db1 db k s e hdbconv hdbusage

/-- A single conversation-less usage log owned by `k`. -/
def usageRow1 : UsageRow :=
  { id := 1
    api_key_id := "k"
    «alias» := some "fast"
    provider := "openai"
    model := "gpt-4o"
    input_tokens := some 2
    output_tokens := some 3
    cost := some 1
    created_at := 5
    conversation_id := none }

/-- A store holding exactly that usage log, nothing certified yet. -/
def dbOneUsage : Db :=
  { conversations := []
    usage_logs := [usageRow1]
    messages := []
    receipts := []
    receipt_logs := [] }

/-- Fallback-extraction of the receipt of a generate result. -/
def extractGenReceipt (e : Except String (BatchReceipt × Nat × Db)) : BatchReceipt :=
  match e with
  | .ok p => p.1
  | .error _ => sampleNoSigReceipt

/-- Fallback-extraction of the certified count of a generate result. -/
def extractGenCount (e : Except String (BatchReceipt × Nat × Db)) : Nat :=
  match e with
  | .ok p => p.2.1
  | .error _ => 0

/-- Fallback-extraction of the store of a generate result. -/
def extractGenDb (e : Except String (BatchReceipt × Nat × Db)) : Db :=
  match e with
  | .ok p => p.2.2
  | .error _ => emptyDb

/-- Counterexample for C1: in date-range mode, the second of two
immediately sequential `generate` calls over an unchanged store succeeds
(neither `NoMatchError` nor an empty batch) and links the same
`(log_id, log_type)` record to a second receipt — the record is
certified twice across the two calls. -/
theorem date_range_double_certification_cex :
    (generateOnDemandReceipt trivialEd25519 settingsWithKeys "r2" 8
      (extractGenDb (generateOnDemandReceipt trivialEd25519 settingsWithKeys
        "r1" 7 dbOneUsage "k" dateRangeReq)) "k" dateRangeReq).isOk = true ∧
    (extractGenDb (generateOnDemandReceipt trivialEd25519 settingsWithKeys "r2" 8
      (extractGenDb (generateOnDemandReceipt trivialEd25519 settingsWithKeys
        "r1" 7 dbOneUsage "k" dateRangeReq)) "k" dateRangeReq)).receipt_logs =
      [{ receipt_id := "r1", log_id := 1, log_type := "usage" },
       { receipt_id := "r2", log_id := 1, log_type := "usage" }] :=
  ⟨rfl, rfl⟩

/-- The pure since-last-receipt request. -/
def sinceLastReq : ReceiptGenerationRequest :=
  { conversation_id := none
    start_date := none
    end_date := none
    log_ids := none
    since_last_receipt := true
    description := none
    tags := none }

/-- Witness for C1: after one successful since-last-receipt run over the
one-usage store, an immediate second run reports no logs, while the
date-range selection over the updated store is unchanged. -/
theorem since_last_receipt_at_most_once_witness :
    generateOnDemandReceipt trivialEd25519 settingsWithKeys "r2" 8
      (extractGenDb (generateOnDemandReceipt trivialEd25519 settingsWithKeys
        "r1" 7 dbOneUsage "k" sinceLastReq)) "k" sinceLastReq =
      .error "No logs found matching the criteria" ∧
    (∀ s e, fetchLogsByDateRange
      (extractGenDb (generateOnDemandReceipt trivialEd25519 settingsWithKeys
        "r1" 7 dbOneUsage "k" sinceLastReq)) "k" s e =
      fetchLogsByDateRange dbOneUsage "k" s e) :=
  since_last_receipt_at_most_once trivialEd25519 settingsWithKeys "r1" 7 "r2" 8
    dbOneUsage "k" sinceLastReq
    (extractGenReceipt (generateOnDemandReceipt trivialEd25519 settingsWithKeys
      "r1" 7 dbOneUsage "k" sinceLastReq))
    (extractGenCount (generateOnDemandReceipt trivialEd25519 settingsWithKeys
      "r1" 7 dbOneUsage "k" sinceLastReq))
    (extractGenDb (generateOnDemandReceipt trivialEd25519 settingsWithKeys
      "r1" 7 dbOneUsage "k" sinceLastReq))
    rfl (Or.inl rfl) (Or.inl rfl) rfl (by decide) (by decide) rfl
